import Mathlib

/-
  Shallow embedding of the vortex-express-5-sdk request handlers.

  Sources embedded:
  - `sanitizeInput` and friends from `src/utils.ts`;
  - the eight invitation handlers from `src/handlers/invitations.ts`
    (the version that supports both the `user` and the legacy `target`
    accept shapes and the sync-internal-invitation operation);
  - `handleJwtGeneration` from `src/handlers/jwt.ts`.

  Conventions of the embedding:
  - nullable / possibly-missing JS strings are `Option String`; JS string
    truthiness (`null`, `undefined` and `""` are falsy) is `strTruthy`;
  - the host-supplied hooks (access-control predicates, identity resolver)
    are function-valued configuration fields, applied to the same arguments
    the source passes them (the Express req/res objects are omitted: the
    handlers only thread them through);
  - each handler returns a `HandlerOutcome` recording the HTTP status, the
    `error` message of `createErrorResponse` (if any), the access-gate
    decision when the gate was evaluated, the delegate invocation (method
    and arguments) when the external client was called, and whether the
    catch block logged via console.error;
  - the external client's behaviour is an input `dres : Except String _`:
    `Except.error m` models the delegate throwing an Error with message m;
  - JS `trim` whitespace is modelled by `Char.isWhitespace`, and UTF-16
    code units by `Char`s (no claim exercises astral code points).
-/

namespace VortexExpress

/-- The characters removed by `sanitizeInput`: `<`, `>`, the apostrophe
(code point 39) and the double quote (code point 34). -/
def isStrippedChar (c : Char) : Bool :=
  c = '<' || c = '>' || c.toNat == 39 || c.toNat == 34

/-- Leading-whitespace removal (the front half of JS `String.prototype.trim`). -/
def trimLeft (l : List Char) : List Char :=
  l.dropWhile Char.isWhitespace

/-- Trailing-whitespace removal (the back half of JS `String.prototype.trim`). -/
def trimRight (l : List Char) : List Char :=
  (l.reverse.dropWhile Char.isWhitespace).reverse

/-- JS `String.prototype.trim` on the character list. -/
def trimChars (l : List Char) : List Char :=
  trimRight (trimLeft l)

/-- The sanitization pipeline of `sanitizeInput` on a character list:
trim, then strip `<>'"`, then truncate to 1000 code units. -/
def sanitizeChars (l : List Char) : List Char :=
  ((trimChars l).filter (fun c => !isStrippedChar c)).take 1000

/-- `input.trim().replace(/[<>'"]/g, '').substring(0, 1000)` -/
def sanitizeStr (s : String) : String :=
  String.mk (sanitizeChars s.data)

/-- `sanitizeInput` from `src/utils.ts`: a falsy input (null/undefined/"")
yields null, otherwise the sanitization pipeline (whose result may be the
empty, falsy, string). -/
def sanitizeInput : Option String → Option String
  | none => none
  | some s => if s.isEmpty then none else some (sanitizeStr s)

/-- JS truthiness of a possibly-null string value. -/
def strTruthy : Option String → Bool
  | none => false
  | some s => !s.isEmpty

/-- The identity produced by the host's `authenticateUser` hook
(new simplified format used by the JWT handler). -/
structure AuthenticatedUser where
  userId : Option String
  userEmail : Option String
  userName : Option String
  userAvatarUrl : Option String
  adminScopes : Option (List String)
  allowedEmailDomains : Option (List String)
  attributes : Option (List (String × String))
deriving DecidableEq

/-- The `{email?, phone?, name?}` accept-invitations user shape. -/
structure UserObj where
  email : Option String
  phone : Option String
  name : Option String
deriving DecidableEq

/-- The legacy `{type?, value?}` accept-invitations target shape. -/
structure TargetObj where
  type : Option String
  value : Option String
deriving DecidableEq

/-- The `acceptData` forwarded to `vortex.acceptInvitations`. -/
inductive AcceptData where
  | userData (email phone name : Option String)
  | targetData (ttype tvalue : String)
deriving DecidableEq

/-- Parsed body of POST /invitations/accept.  `invitationIds = none`
models a missing or non-array field. -/
structure AcceptBody where
  invitationIds : Option (List String)
  target : Option TargetObj
  user : Option UserObj
deriving DecidableEq

/-- Parsed body of the sync-internal-invitation operation. -/
structure SyncBody where
  creatorId : Option String
  targetValue : Option String
  action : Option String
  componentId : Option String
deriving DecidableEq

/-- The sanitized payload passed both to the `canSyncInternalInvitation`
hook and to `vortex.syncInternalInvitation`. -/
structure SyncPayload where
  creatorId : String
  targetValue : String
  action : String
  componentId : String
deriving DecidableEq

/-- The resource descriptor passed to the `canAcceptInvitations` hook. -/
structure AcceptResource where
  invitationIds : List String
  target : Option TargetObj
  user : Option UserObj
deriving DecidableEq

/-- The resource descriptor passed to the group-scoped hooks. -/
structure GroupResource where
  groupType : String
  groupId : String
deriving DecidableEq

/-- The `user` part of the params handed to `vortex.generateJwt`. -/
structure JwtUser where
  id : String
  email : String
  userName : Option String
  userAvatarUrl : Option String
  adminScopes : Option (List String)
  allowedEmailDomains : Option (List String)
deriving DecidableEq

/-- The params handed to `vortex.generateJwt`. -/
structure JwtParams where
  user : JwtUser
  attributes : Option (List (String × String))
deriving DecidableEq

/-- One invocation of the external Vortex client: which method, with
which (already normalized) arguments. -/
inductive DelegateCall where
  | getInvitationsByTarget (targetType targetValue : String)
  | getInvitation (invitationId : String)
  | revokeInvitation (invitationId : String)
  | acceptInvitations (ids : List String) (data : AcceptData)
  | getInvitationsByGroup (groupType groupId : String)
  | deleteInvitationsByGroup (groupType groupId : String)
  | syncInternalInvitation (payload : SyncPayload)
  | reinvite (invitationId : String)
  | generateJwt (params : JwtParams)
deriving DecidableEq

/-- Observable outcome of one handler run: HTTP status, error-envelope
message (when `createErrorResponse` produced the response), the access
decision when the gate was evaluated, the delegate invocation when the
external client was called, whether the catch block logged the error,
and the token of a successful JWT response. -/
structure HandlerOutcome where
  status : Nat
  error : Option String
  gate : Option Bool
  call : Option DelegateCall
  logged : Bool
  jwtToken : Option String
deriving DecidableEq

/-- Process-wide configuration: the identity-resolver result as the JWT
handler sees it (`none` = hook not configured, `some r` = configured and
returning `r`), and one optional access-control predicate per operation,
applied to the resolved identity and the operation's resource descriptor. -/
structure VortexConfig where
  apiKey : String
  authenticateUser : Option (Option AuthenticatedUser)
  canAccessInvitationsByTarget : Option (Option AuthenticatedUser → Bool)
  canAccessInvitation : Option (Option AuthenticatedUser → String → Bool)
  canDeleteInvitation : Option (Option AuthenticatedUser → String → Bool)
  canAcceptInvitations : Option (Option AuthenticatedUser → AcceptResource → Bool)
  canAccessInvitationsByGroup : Option (Option AuthenticatedUser → GroupResource → Bool)
  canDeleteInvitationsByGroup : Option (Option AuthenticatedUser → GroupResource → Bool)
  canSyncInternalInvitation : Option (Option AuthenticatedUser → SyncPayload → Bool)
  canReinvite : Option (Option AuthenticatedUser → String → Bool)

/-- `createErrorResponse(res, 'Method not allowed', 405)` before any
parsing, authentication or gating. -/
def methodNotAllowed : HandlerOutcome :=
  { status := 405, error := some "Method not allowed", gate := none,
    call := none, logged := false, jwtToken := none }

/-- A 400 validation failure raised before the access gate. -/
def validationError (msg : String) : HandlerOutcome :=
  { status := 400, error := some msg, gate := none,
    call := none, logged := false, jwtToken := none }

/-- A 400 validation failure raised after the access gate allowed
(only get-by-target validates after its gate). -/
def validationErrorPostGate (msg : String) : HandlerOutcome :=
  { status := 400, error := some msg, gate := some true,
    call := none, logged := false, jwtToken := none }

/-- Denial by a configured predicate: `createErrorResponse(res, 'Access denied', 403)`. -/
def accessDeniedHook : HandlerOutcome :=
  { status := 403, error := some "Access denied", gate := some false,
    call := none, logged := false, jwtToken := none }

/-- Denial with no predicate configured and no identity resolved. -/
def accessDeniedNoHook : HandlerOutcome :=
  { status := 403,
    error := some "Access denied. Configure access control hooks for invitation endpoints.",
    gate := some false, call := none, logged := false, jwtToken := none }

/-- The access decision of the gate: the predicate's verdict when one is
configured, otherwise "an identity was resolved". -/
def gateVerdict {ρ : Type} (hook : Option (Option AuthenticatedUser → ρ → Bool))
    (user : Option AuthenticatedUser) (res : ρ) : Bool :=
  match hook with
  | some p => p user res
  | none => user.isSome

/-- Verdict of the (resource-free) get-by-target gate. -/
def gateVerdictNR (hook : Option (Option AuthenticatedUser → Bool))
    (user : Option AuthenticatedUser) : Bool :=
  match hook with
  | some p => p user
  | none => user.isSome

/-- The shared access-gate block of the invitation handlers: evaluate the
configured predicate if present (denial is a 403 "Access denied"),
otherwise require a resolved identity (denial is a 403 instructing the
integrator to configure the hooks). -/
def runGate {ρ : Type} (hook : Option (Option AuthenticatedUser → ρ → Bool))
    (user : Option AuthenticatedUser) (res : ρ)
    (proceed : HandlerOutcome) : HandlerOutcome :=
  match hook with
  | some p => if p user res then proceed else accessDeniedHook
  | none => if user.isSome then proceed else accessDeniedNoHook

/-- The access-gate block of get-by-target, whose hook takes no resource. -/
def runGateNR (hook : Option (Option AuthenticatedUser → Bool))
    (user : Option AuthenticatedUser)
    (proceed : HandlerOutcome) : HandlerOutcome :=
  match hook with
  | some p => if p user then proceed else accessDeniedHook
  | none => if user.isSome then proceed else accessDeniedNoHook

/-- Delegate invocation and response normalization shared by the
invitation handlers: on success a 200 envelope, on a thrown fault the
catch block logs and answers the generic 500 message. -/
def delegateOutcome (c : DelegateCall) (dres : Except String Unit) : HandlerOutcome :=
  match dres with
  | Except.ok _ =>
    { status := 200, error := none, gate := some true,
      call := some c, logged := false, jwtToken := none }
  | Except.error _ =>
    { status := 500, error := some "An error occurred while processing your request",
      gate := some true, call := some c, logged := true, jwtToken := none }

/-- `handleGetInvitationsByTarget` (GET /invitations): method check, then
the access gate, then sanitization/validation of the query parameters,
then the delegate.  Note the gate runs before input validation here. -/
def handleGetInvitationsByTarget (cfg : VortexConfig) (method : String)
    (user : Option AuthenticatedUser) (targetTypeQ targetValueQ : Option String)
    (dres : Except String Unit) : HandlerOutcome :=
  if method ≠ "GET" then methodNotAllowed else
  runGateNR cfg.canAccessInvitationsByTarget user
    (if !strTruthy (sanitizeInput targetTypeQ) || !strTruthy (sanitizeInput targetValueQ) then
       validationErrorPostGate "targetType and targetValue query parameters are required"
     else if !(["email", "username", "phoneNumber"].contains ((sanitizeInput targetTypeQ).getD "")) then
       validationErrorPostGate "targetType must be email, username, or phoneNumber"
     else
       delegateOutcome
         (DelegateCall.getInvitationsByTarget ((sanitizeInput targetTypeQ).getD "")
           ((sanitizeInput targetValueQ).getD ""))
         dres)

/-- `handleGetInvitation` (GET /invitations/:invitationId). -/
def handleGetInvitation (cfg : VortexConfig) (method : String)
    (user : Option AuthenticatedUser) (invitationIdP : Option String)
    (dres : Except String Unit) : HandlerOutcome :=
  if method ≠ "GET" then methodNotAllowed else
  if !strTruthy (sanitizeInput invitationIdP) then validationError "Invalid invitation ID" else
  runGate cfg.canAccessInvitation user ((sanitizeInput invitationIdP).getD "")
    (delegateOutcome (DelegateCall.getInvitation ((sanitizeInput invitationIdP).getD "")) dres)

/-- `handleRevokeInvitation` (DELETE /invitations/:invitationId). -/
def handleRevokeInvitation (cfg : VortexConfig) (method : String)
    (user : Option AuthenticatedUser) (invitationIdP : Option String)
    (dres : Except String Unit) : HandlerOutcome :=
  if method ≠ "DELETE" then methodNotAllowed else
  if !strTruthy (sanitizeInput invitationIdP) then validationError "Invalid invitation ID" else
  runGate cfg.canDeleteInvitation user ((sanitizeInput invitationIdP).getD "")
    (delegateOutcome (DelegateCall.revokeInvitation ((sanitizeInput invitationIdP).getD "")) dres)

/-- `invitationIds.map(sanitizeInput).filter(Boolean)`: sanitize each id
and drop the falsy (null or empty) results. -/
def sanitizeIds (ids : List String) : List String :=
  (ids.map (fun i => sanitizeInput (some i))).filterMap
    (fun o => if strTruthy o then o else none)

/-- The accept-data construction of `handleAcceptInvitations`: the `user`
shape wins when present (requiring email or phone), otherwise the legacy
`target` shape (requiring type and value, with the enum check and the
`sanitizeInput(value) || value` fallback). -/
def acceptDataOf (body : AcceptBody) : Except String AcceptData :=
  match body.user with
  | some u =>
    if !strTruthy u.email && !strTruthy u.phone then
      Except.error "user must have either email or phone"
    else
      Except.ok (AcceptData.userData
        (if strTruthy u.email then sanitizeInput u.email else none)
        (if strTruthy u.phone then sanitizeInput u.phone else none)
        (if strTruthy u.name then sanitizeInput u.name else none))
  | none =>
    match body.target with
    | none => Except.error "target must have type and value properties"
    | some t =>
      if !strTruthy t.type || !strTruthy t.value then
        Except.error "target must have type and value properties"
      else if !(["email", "username", "phoneNumber", "phone"].contains (t.type.getD "")) then
        Except.error "target.type must be email, username, phoneNumber, or phone"
      else
        Except.ok (AcceptData.targetData (t.type.getD "")
          (if strTruthy (sanitizeInput t.value) then (sanitizeInput t.value).getD ""
           else t.value.getD ""))

/-- `handleAcceptInvitations` (POST /invitations/accept): validate the id
list, require one of the two body shapes, build the accept data, then the
access gate (resource: sanitized ids plus the raw target/user), then the
delegate. -/
def handleAcceptInvitations (cfg : VortexConfig) (method : String)
    (auser : Option AuthenticatedUser) (body : AcceptBody)
    (dres : Except String Unit) : HandlerOutcome :=
  if method ≠ "POST" then methodNotAllowed else
  match body.invitationIds with
  | none => validationError "invitationIds must be a non-empty array"
  | some ids =>
    if ids.isEmpty then validationError "invitationIds must be a non-empty array" else
    if (sanitizeIds ids).length ≠ ids.length then
      validationError "Invalid invitation IDs provided"
    else if body.user.isNone && body.target.isNone then
      validationError "Either user or target must be provided"
    else
      match acceptDataOf body with
      | Except.error msg => validationError msg
      | Except.ok acceptData =>
        runGate cfg.canAcceptInvitations auser
          { invitationIds := sanitizeIds ids, target := body.target, user := body.user }
          (delegateOutcome (DelegateCall.acceptInvitations (sanitizeIds ids) acceptData) dres)

/-- `handleGetInvitationsByGroup` (GET /invitations/by-group/:groupType/:groupId). -/
def handleGetInvitationsByGroup (cfg : VortexConfig) (method : String)
    (user : Option AuthenticatedUser) (groupTypeP groupIdP : Option String)
    (dres : Except String Unit) : HandlerOutcome :=
  if method ≠ "GET" then methodNotAllowed else
  if !strTruthy (sanitizeInput groupTypeP) || !strTruthy (sanitizeInput groupIdP) then
    validationError "Invalid group parameters" else
  runGate cfg.canAccessInvitationsByGroup user
    { groupType := (sanitizeInput groupTypeP).getD "", groupId := (sanitizeInput groupIdP).getD "" }
    (delegateOutcome
      (DelegateCall.getInvitationsByGroup ((sanitizeInput groupTypeP).getD "")
        ((sanitizeInput groupIdP).getD "")) dres)

/-- `handleDeleteInvitationsByGroup` (DELETE /invitations/by-group/:groupType/:groupId). -/
def handleDeleteInvitationsByGroup (cfg : VortexConfig) (method : String)
    (user : Option AuthenticatedUser) (groupTypeP groupIdP : Option String)
    (dres : Except String Unit) : HandlerOutcome :=
  if method ≠ "DELETE" then methodNotAllowed else
  if !strTruthy (sanitizeInput groupTypeP) || !strTruthy (sanitizeInput groupIdP) then
    validationError "Invalid group parameters" else
  runGate cfg.canDeleteInvitationsByGroup user
    { groupType := (sanitizeInput groupTypeP).getD "", groupId := (sanitizeInput groupIdP).getD "" }
    (delegateOutcome
      (DelegateCall.deleteInvitationsByGroup ((sanitizeInput groupTypeP).getD "")
        ((sanitizeInput groupIdP).getD "")) dres)

/-- `!action || !['accepted', 'declined'].includes(action)` (negated). -/
def actionOk : Option String → Bool
  | some a => ["accepted", "declined"].contains a
  | none => false

/-- The sanitized payload `handleSyncInternalInvitation` passes both to
its hook and to the delegate. -/
def syncPayloadOf (body : SyncBody) : SyncPayload :=
  { creatorId := (sanitizeInput body.creatorId).getD ""
    targetValue := (sanitizeInput body.targetValue).getD ""
    action := body.action.getD ""
    componentId := (sanitizeInput body.componentId).getD "" }

/-- `handleSyncInternalInvitation` (POST /invitation-actions/sync-internal-invitation). -/
def handleSyncInternalInvitation (cfg : VortexConfig) (method : String)
    (user : Option AuthenticatedUser) (body : SyncBody)
    (dres : Except String Unit) : HandlerOutcome :=
  if method ≠ "POST" then methodNotAllowed else
  if !strTruthy body.creatorId then
    validationError "creatorId is required and must be a string" else
  if !strTruthy body.targetValue then
    validationError "targetValue is required and must be a string" else
  if !actionOk body.action then
    validationError "action is required and must be \"accepted\" or \"declined\"" else
  if !strTruthy body.componentId then
    validationError "componentId is required and must be a string" else
  runGate cfg.canSyncInternalInvitation user (syncPayloadOf body)
    (delegateOutcome (DelegateCall.syncInternalInvitation (syncPayloadOf body)) dres)

/-- `handleReinvite` (POST /invitations/:invitationId/reinvite). -/
def handleReinvite (cfg : VortexConfig) (method : String)
    (user : Option AuthenticatedUser) (invitationIdP : Option String)
    (dres : Except String Unit) : HandlerOutcome :=
  if method ≠ "POST" then methodNotAllowed else
  if !strTruthy (sanitizeInput invitationIdP) then validationError "Invalid invitation ID" else
  runGate cfg.canReinvite user ((sanitizeInput invitationIdP).getD "")
    (delegateOutcome (DelegateCall.reinvite ((sanitizeInput invitationIdP).getD "")) dres)

/-- The `jwtParams` built by `handleJwtGeneration`: id and email always,
the optional fields spread in only when truthy (strings) respectively
present and non-empty (arrays), `attributes` copied when present. -/
def buildJwtParams (u : AuthenticatedUser) : JwtParams :=
  { user :=
      { id := u.userId.getD ""
        email := u.userEmail.getD ""
        userName := if strTruthy u.userName then u.userName else none
        userAvatarUrl := if strTruthy u.userAvatarUrl then u.userAvatarUrl else none
        adminScopes :=
          match u.adminScopes with
          | some l => if l.isEmpty then none else some l
          | none => none
        allowedEmailDomains :=
          match u.allowedEmailDomains with
          | some l => if l.isEmpty then none else some l
          | none => none }
    attributes := u.attributes }

/-- The 500 configuration failure of POST /jwt when no `authenticateUser`
hook is configured. -/
def jwtMissingResolver : HandlerOutcome :=
  { status := 500,
    error := some "JWT generation requires authentication configuration. Please configure authenticateUser hook.",
    gate := none, call := none, logged := false, jwtToken := none }

/-- The 401 of POST /jwt when the resolver returned null. -/
def jwtUnauthorized : HandlerOutcome :=
  { status := 401, error := some "Unauthorized", gate := none,
    call := none, logged := false, jwtToken := none }

/-- The 500 configuration failure of POST /jwt when the resolved identity
lacks a truthy userId or userEmail. -/
def jwtInvalidUserFormat : HandlerOutcome :=
  { status := 500, error := some "Invalid user format: must provide userId and userEmail",
    gate := none, call := none, logged := false, jwtToken := none }

/-- The 200 `{jwt}` response of POST /jwt. -/
def jwtSuccess (p : JwtParams) (token : String) : HandlerOutcome :=
  { status := 200, error := none, gate := none,
    call := some (DelegateCall.generateJwt p), logged := false, jwtToken := some token }

/-- The 500 of POST /jwt when `generateJwt` threw: the fault's message is
surfaced as-is and nothing is logged. -/
def jwtFault (p : JwtParams) (e : String) : HandlerOutcome :=
  { status := 500, error := some e, gate := none,
    call := some (DelegateCall.generateJwt p), logged := false, jwtToken := none }

/-- `handleJwtGeneration` (POST /jwt): a missing `authenticateUser` hook
is a 500 configuration failure, a null identity a 401, an identity
without truthy userId and userEmail a 500, otherwise `generateJwt` is
invoked; its thrown fault is surfaced as-is at 500 with no logging. -/
def handleJwtGeneration (cfg : VortexConfig) (method : String)
    (dres : Except String String) : HandlerOutcome :=
  if method ≠ "POST" then methodNotAllowed else
  match cfg.authenticateUser with
  | none => jwtMissingResolver
  | some none => jwtUnauthorized
  | some (some u) =>
    if !strTruthy u.userId || !strTruthy u.userEmail then jwtInvalidUserFormat
    else
      match dres with
      | Except.ok token => jwtSuccess (buildJwtParams u) token
      | Except.error e => jwtFault (buildJwtParams u) e

/-- A configuration with no hooks at all (concrete test fixture). -/
def baseConfig : VortexConfig :=
  { apiKey := "k", authenticateUser := none,
    canAccessInvitationsByTarget := none, canAccessInvitation := none,
    canDeleteInvitation := none, canAcceptInvitations := none,
    canAccessInvitationsByGroup := none, canDeleteInvitationsByGroup := none,
    canSyncInternalInvitation := none, canReinvite := none }

/-- `baseConfig` with an always-allowing get-by-target predicate. -/
def allowByTargetConfig : VortexConfig :=
  { baseConfig with canAccessInvitationsByTarget := some (fun _ => true) }

/-- A resolved identity carrying the minimum id and email. -/
def sampleUser : AuthenticatedUser :=
  { userId := some "u1", userEmail := some "a@b.com", userName := none,
    userAvatarUrl := none, adminScopes := none, allowedEmailDomains := none,
    attributes := none }

/-- `baseConfig` with an identity resolver returning `sampleUser`. -/
def jwtConfig : VortexConfig :=
  { baseConfig with authenticateUser := some (some sampleUser) }

/-- An accept body with one valid id and a legacy target whose value is
made exclusively of stripped characters. -/
def strippedTargetBody : AcceptBody :=
  { invitationIds := some ["i1"]
    target := some { type := some "email", value := some "\"<>\"" }
    user := none }

/-- An accept body with one valid id and a well-formed legacy target. -/
def emailTargetBody : AcceptBody :=
  { invitationIds := some ["i1"]
    target := some { type := some "email", value := some "a@b.com" }
    user := none }

/-- An accept body with one valid id and a well-formed user shape. -/
def userShapeBody : AcceptBody :=
  { invitationIds := some ["i1"]
    target := none
    user := some { email := some "a@b.com", phone := none, name := none } }

/-- A resolved identity with all optional JWT fields exercised: a truthy
display name and avatar, a non-empty admin-scope list, and an empty
allowed-email-domain list. -/
def fullJwtUser : AuthenticatedUser :=
  { userId := some "u1", userEmail := some "a@b.com", userName := some "Ann",
    userAvatarUrl := some "https://x/y.png", adminScopes := some ["autojoin"],
    allowedEmailDomains := some [], attributes := none }

/-- A well-formed sync-internal-invitation body. -/
def syncBodyOk : SyncBody :=
  { creatorId := some "c1", targetValue := some "t@e.com",
    action := some "accepted", componentId := some "w1" }

/-- An accept body whose only invitation id is made of stripped
characters, so sanitization drops it. -/
def badIdsBody : AcceptBody :=
  { invitationIds := some ["<>"], target := none, user := none }

/-- `baseConfig` with an identity resolver configured but returning null. -/
def jwtNullConfig : VortexConfig :=
  { baseConfig with authenticateUser := some none }

/-- `baseConfig` with an identity resolver returning `fullJwtUser`. -/
def fullJwtConfig : VortexConfig :=
  { baseConfig with authenticateUser := some (some fullJwtUser) }

theorem runGate_eq {ρ : Type} (hook : Option (Option AuthenticatedUser → ρ → Bool))
    (user : Option AuthenticatedUser) (res : ρ) (proceed : HandlerOutcome) :
    runGate hook user res proceed =
      if gateVerdict hook user res then proceed
      else match hook with
        | some _ => accessDeniedHook
        | none => accessDeniedNoHook := by
  unfold runGate gateVerdict
  cases hook with
  | none => cases h : user.isSome <;> simp [h]
  | some p => cases h : p user res <;> simp [h]

theorem runGateNR_eq (hook : Option (Option AuthenticatedUser → Bool))
    (user : Option AuthenticatedUser) (proceed : HandlerOutcome) :
    runGateNR hook user proceed =
      if gateVerdictNR hook user then proceed
      else match hook with
        | some _ => accessDeniedHook
        | none => accessDeniedNoHook := by
  unfold runGateNR gateVerdictNR
  cases hook with
  | none => cases h : user.isSome <;> simp [h]
  | some p => cases h : p user <;> simp [h]

theorem getByTarget_cases (cfg : VortexConfig) (method : String)
    (user : Option AuthenticatedUser) (ttq tvq : Option String)
    (dres : Except String Unit) :
    (method ≠ "GET" ∧
      handleGetInvitationsByTarget cfg method user ttq tvq dres = methodNotAllowed) ∨
    (method = "GET" ∧ gateVerdictNR cfg.canAccessInvitationsByTarget user = false ∧
      (handleGetInvitationsByTarget cfg method user ttq tvq dres = accessDeniedHook ∨
       handleGetInvitationsByTarget cfg method user ttq tvq dres = accessDeniedNoHook)) ∨
    (method = "GET" ∧ gateVerdictNR cfg.canAccessInvitationsByTarget user = true ∧
      (strTruthy (sanitizeInput ttq) = false ∨ strTruthy (sanitizeInput tvq) = false) ∧
      handleGetInvitationsByTarget cfg method user ttq tvq dres =
        validationErrorPostGate "targetType and targetValue query parameters are required") ∨
    (method = "GET" ∧ gateVerdictNR cfg.canAccessInvitationsByTarget user = true ∧
      strTruthy (sanitizeInput ttq) = true ∧ strTruthy (sanitizeInput tvq) = true ∧
      (["email", "username", "phoneNumber"].contains ((sanitizeInput ttq).getD "")) = false ∧
      handleGetInvitationsByTarget cfg method user ttq tvq dres =
        validationErrorPostGate "targetType must be email, username, or phoneNumber") ∨
    (method = "GET" ∧ gateVerdictNR cfg.canAccessInvitationsByTarget user = true ∧
      strTruthy (sanitizeInput ttq) = true ∧ strTruthy (sanitizeInput tvq) = true ∧
      (["email", "username", "phoneNumber"].contains ((sanitizeInput ttq).getD "")) = true ∧
      handleGetInvitationsByTarget cfg method user ttq tvq dres =
        delegateOutcome (DelegateCall.getInvitationsByTarget ((sanitizeInput ttq).getD "")
          ((sanitizeInput tvq).getD "")) dres) := by
  unfold handleGetInvitationsByTarget
  split
  · rename_i hm
    exact Or.inl ⟨hm, rfl⟩
  · rename_i hm
    have hm' : method = "GET" := not_not.mp hm
    rw [runGateNR_eq]
    cases h : gateVerdictNR cfg.canAccessInvitationsByTarget user with
    | false =>
      refine Or.inr (Or.inl ⟨hm', rfl, ?_⟩)
      cases hk : cfg.canAccessInvitationsByTarget <;> simp [h, hk]
    | true =>
      simp only [h, if_true]
      split
      · rename_i hv
        exact Or.inr (Or.inr (Or.inl ⟨hm', trivial, by simpa using hv, rfl⟩))
      · rename_i hv
        have hv' : strTruthy (sanitizeInput ttq) = true ∧ strTruthy (sanitizeInput tvq) = true := by
          simpa using hv
        split
        · rename_i he
          exact Or.inr (Or.inr (Or.inr (Or.inl
            ⟨hm', trivial, hv'.1, hv'.2, by simpa using he, rfl⟩)))
        · rename_i he
          have he' : (["email", "username", "phoneNumber"].contains
              ((sanitizeInput ttq).getD "")) = true := by
            cases hx : ["email", "username", "phoneNumber"].contains
                ((sanitizeInput ttq).getD "") with
            | true => rfl
            | false => exact absurd (by rw [hx]; rfl) he
          exact Or.inr (Or.inr (Or.inr (Or.inr ⟨hm', trivial, hv'.1, hv'.2, he', rfl⟩)))

theorem getInvitation_cases (cfg : VortexConfig) (method : String)
    (user : Option AuthenticatedUser) (idP : Option String)
    (dres : Except String Unit) :
    (method ≠ "GET" ∧ handleGetInvitation cfg method user idP dres = methodNotAllowed) ∨
    (method = "GET" ∧ strTruthy (sanitizeInput idP) = false ∧
      handleGetInvitation cfg method user idP dres = validationError "Invalid invitation ID") ∨
    (method = "GET" ∧ strTruthy (sanitizeInput idP) = true ∧
      gateVerdict cfg.canAccessInvitation user ((sanitizeInput idP).getD "") = false ∧
      (handleGetInvitation cfg method user idP dres = accessDeniedHook ∨
       handleGetInvitation cfg method user idP dres = accessDeniedNoHook)) ∨
    (method = "GET" ∧ strTruthy (sanitizeInput idP) = true ∧
      gateVerdict cfg.canAccessInvitation user ((sanitizeInput idP).getD "") = true ∧
      handleGetInvitation cfg method user idP dres =
        delegateOutcome (DelegateCall.getInvitation ((sanitizeInput idP).getD "")) dres) := by
  unfold handleGetInvitation
  split
  · rename_i hm
    exact Or.inl ⟨hm, rfl⟩
  · rename_i hm
    have hm' : method = "GET" := not_not.mp hm
    split
    · rename_i hv
      exact Or.inr (Or.inl ⟨hm', by simpa using hv, rfl⟩)
    · rename_i hv
      have hv' : strTruthy (sanitizeInput idP) = true := by simpa using hv
      rw [runGate_eq]
      cases h : gateVerdict cfg.canAccessInvitation user ((sanitizeInput idP).getD "") with
      | false =>
        refine Or.inr (Or.inr (Or.inl ⟨hm', hv', rfl, ?_⟩))
        cases hk : cfg.canAccessInvitation <;> simp [h, hk]
      | true =>
        exact Or.inr (Or.inr (Or.inr ⟨hm', hv', rfl, by simp [h]⟩))

theorem revoke_cases (cfg : VortexConfig) (method : String)
    (user : Option AuthenticatedUser) (idP : Option String)
    (dres : Except String Unit) :
    (method ≠ "DELETE" ∧ handleRevokeInvitation cfg method user idP dres = methodNotAllowed) ∨
    (method = "DELETE" ∧ strTruthy (sanitizeInput idP) = false ∧
      handleRevokeInvitation cfg method user idP dres = validationError "Invalid invitation ID") ∨
    (method = "DELETE" ∧ strTruthy (sanitizeInput idP) = true ∧
      gateVerdict cfg.canDeleteInvitation user ((sanitizeInput idP).getD "") = false ∧
      (handleRevokeInvitation cfg method user idP dres = accessDeniedHook ∨
       handleRevokeInvitation cfg method user idP dres = accessDeniedNoHook)) ∨
    (method = "DELETE" ∧ strTruthy (sanitizeInput idP) = true ∧
      gateVerdict cfg.canDeleteInvitation user ((sanitizeInput idP).getD "") = true ∧
      handleRevokeInvitation cfg method user idP dres =
        delegateOutcome (DelegateCall.revokeInvitation ((sanitizeInput idP).getD "")) dres) := by
  unfold handleRevokeInvitation
  split
  · rename_i hm
    exact Or.inl ⟨hm, rfl⟩
  · rename_i hm
    have hm' : method = "DELETE" := not_not.mp hm
    split
    · rename_i hv
      exact Or.inr (Or.inl ⟨hm', by simpa using hv, rfl⟩)
    · rename_i hv
      have hv' : strTruthy (sanitizeInput idP) = true := by simpa using hv
      rw [runGate_eq]
      cases h : gateVerdict cfg.canDeleteInvitation user ((sanitizeInput idP).getD "") with
      | false =>
        refine Or.inr (Or.inr (Or.inl ⟨hm', hv', rfl, ?_⟩))
        cases hk : cfg.canDeleteInvitation <;> simp [h, hk]
      | true =>
        exact Or.inr (Or.inr (Or.inr ⟨hm', hv', rfl, by simp [h]⟩))

theorem reinvite_cases (cfg : VortexConfig) (method : String)
    (user : Option AuthenticatedUser) (idP : Option String)
    (dres : Except String Unit) :
    (method ≠ "POST" ∧ handleReinvite cfg method user idP dres = methodNotAllowed) ∨
    (method = "POST" ∧ strTruthy (sanitizeInput idP) = false ∧
      handleReinvite cfg method user idP dres = validationError "Invalid invitation ID") ∨
    (method = "POST" ∧ strTruthy (sanitizeInput idP) = true ∧
      gateVerdict cfg.canReinvite user ((sanitizeInput idP).getD "") = false ∧
      (handleReinvite cfg method user idP dres = accessDeniedHook ∨
       handleReinvite cfg method user idP dres = accessDeniedNoHook)) ∨
    (method = "POST" ∧ strTruthy (sanitizeInput idP) = true ∧
      gateVerdict cfg.canReinvite user ((sanitizeInput idP).getD "") = true ∧
      handleReinvite cfg method user idP dres =
        delegateOutcome (DelegateCall.reinvite ((sanitizeInput idP).getD "")) dres) := by
  unfold handleReinvite
  split
  · rename_i hm
    exact Or.inl ⟨hm, rfl⟩
  · rename_i hm
    have hm' : method = "POST" := not_not.mp hm
    split
    · rename_i hv
      exact Or.inr (Or.inl ⟨hm', by simpa using hv, rfl⟩)
    · rename_i hv
      have hv' : strTruthy (sanitizeInput idP) = true := by simpa using hv
      rw [runGate_eq]
      cases h : gateVerdict cfg.canReinvite user ((sanitizeInput idP).getD "") with
      | false =>
        refine Or.inr (Or.inr (Or.inl ⟨hm', hv', rfl, ?_⟩))
        cases hk : cfg.canReinvite <;> simp [h, hk]
      | true =>
        exact Or.inr (Or.inr (Or.inr ⟨hm', hv', rfl, by simp [h]⟩))

theorem accept_cases (cfg : VortexConfig) (method : String)
    (auser : Option AuthenticatedUser) (body : AcceptBody)
    (dres : Except String Unit) :
    (method ≠ "POST" ∧ handleAcceptInvitations cfg method auser body dres = methodNotAllowed) ∨
    (method = "POST" ∧ body.invitationIds = none ∧
      handleAcceptInvitations cfg method auser body dres =
        validationError "invitationIds must be a non-empty array") ∨
    (method = "POST" ∧ ∃ ids, body.invitationIds = some ids ∧ ids.isEmpty = true ∧
      handleAcceptInvitations cfg method auser body dres =
        validationError "invitationIds must be a non-empty array") ∨
    (method = "POST" ∧ ∃ ids, body.invitationIds = some ids ∧ ids.isEmpty = false ∧
      (sanitizeIds ids).length ≠ ids.length ∧
      handleAcceptInvitations cfg method auser body dres =
        validationError "Invalid invitation IDs provided") ∨
    (method = "POST" ∧ ∃ ids, body.invitationIds = some ids ∧ ids.isEmpty = false ∧
      (sanitizeIds ids).length = ids.length ∧
      body.user.isNone = true ∧ body.target.isNone = true ∧
      handleAcceptInvitations cfg method auser body dres =
        validationError "Either user or target must be provided") ∨
    (method = "POST" ∧ ∃ ids msg, body.invitationIds = some ids ∧ ids.isEmpty = false ∧
      (sanitizeIds ids).length = ids.length ∧
      (body.user.isNone && body.target.isNone) = false ∧
      acceptDataOf body = Except.error msg ∧
      handleAcceptInvitations cfg method auser body dres = validationError msg) ∨
    (method = "POST" ∧ ∃ ids d, body.invitationIds = some ids ∧ ids.isEmpty = false ∧
      (sanitizeIds ids).length = ids.length ∧
      (body.user.isNone && body.target.isNone) = false ∧
      acceptDataOf body = Except.ok d ∧
      ((gateVerdict cfg.canAcceptInvitations auser
          { invitationIds := sanitizeIds ids, target := body.target, user := body.user } = false ∧
        (handleAcceptInvitations cfg method auser body dres = accessDeniedHook ∨
         handleAcceptInvitations cfg method auser body dres = accessDeniedNoHook)) ∨
       (gateVerdict cfg.canAcceptInvitations auser
          { invitationIds := sanitizeIds ids, target := body.target, user := body.user } = true ∧
        handleAcceptInvitations cfg method auser body dres =
          delegateOutcome (DelegateCall.acceptInvitations (sanitizeIds ids) d) dres))) := by
  unfold handleAcceptInvitations
  split
  · rename_i hm
    exact Or.inl ⟨hm, rfl⟩
  · rename_i hm
    have hm' : method = "POST" := not_not.mp hm
    split
    · rename_i hids
      exact Or.inr (Or.inl ⟨hm', hids, rfl⟩)
    · rename_i ids hids
      split
      · rename_i hempty
        exact Or.inr (Or.inr (Or.inl ⟨hm', ids, hids, hempty, rfl⟩))
      · rename_i hempty
        have hempty' : ids.isEmpty = false := by simpa using hempty
        split
        · rename_i hlen
          exact Or.inr (Or.inr (Or.inr (Or.inl ⟨hm', ids, hids, hempty', hlen, rfl⟩)))
        · rename_i hlen
          have hlen' : (sanitizeIds ids).length = ids.length := not_not.mp hlen
          split
          · rename_i hboth
            have h1 : body.user.isNone = true := (Bool.and_eq_true _ _ |>.mp hboth).1
            have h2 : body.target.isNone = true := (Bool.and_eq_true _ _ |>.mp hboth).2
            exact Or.inr (Or.inr (Or.inr (Or.inr (Or.inl
              ⟨hm', ids, hids, hempty', hlen', h1, h2, rfl⟩))))
          · rename_i hboth
            have hboth' : (body.user.isNone && body.target.isNone) = false :=
              Bool.eq_false_iff.mpr hboth
            split
            · rename_i msg hmsg
              exact Or.inr (Or.inr (Or.inr (Or.inr (Or.inr (Or.inl
                ⟨hm', ids, msg, hids, hempty', hlen', hboth', hmsg, rfl⟩)))))
            · rename_i d hd
              rw [runGate_eq]
              cases h : gateVerdict cfg.canAcceptInvitations auser
                  { invitationIds := sanitizeIds ids, target := body.target,
                    user := body.user } with
              | false =>
                refine Or.inr (Or.inr (Or.inr (Or.inr (Or.inr (Or.inr
                  ⟨hm', ids, d, hids, hempty', hlen', hboth', hd, Or.inl ⟨?_, ?_⟩⟩)))))
                · exact h
                · cases hk : cfg.canAcceptInvitations <;> simp [h, hk]
              | true =>
                refine Or.inr (Or.inr (Or.inr (Or.inr (Or.inr (Or.inr
                  ⟨hm', ids, d, hids, hempty', hlen', hboth', hd, Or.inr ⟨?_, ?_⟩⟩)))))
                · exact h
                · simp [h]

theorem getByGroup_cases (cfg : VortexConfig) (method : String)
    (user : Option AuthenticatedUser) (gtP giP : Option String)
    (dres : Except String Unit) :
    (method ≠ "GET" ∧
      handleGetInvitationsByGroup cfg method user gtP giP dres = methodNotAllowed) ∨
    (method = "GET" ∧
      (strTruthy (sanitizeInput gtP) = false ∨ strTruthy (sanitizeInput giP) = false) ∧
      handleGetInvitationsByGroup cfg method user gtP giP dres =
        validationError "Invalid group parameters") ∨
    (method = "GET" ∧
      strTruthy (sanitizeInput gtP) = true ∧ strTruthy (sanitizeInput giP) = true ∧
      gateVerdict cfg.canAccessInvitationsByGroup user
        { groupType := (sanitizeInput gtP).getD "", groupId := (sanitizeInput giP).getD "" } = false ∧
      (handleGetInvitationsByGroup cfg method user gtP giP dres = accessDeniedHook ∨
       handleGetInvitationsByGroup cfg method user gtP giP dres = accessDeniedNoHook)) ∨
    (method = "GET" ∧
      strTruthy (sanitizeInput gtP) = true ∧ strTruthy (sanitizeInput giP) = true ∧
      gateVerdict cfg.canAccessInvitationsByGroup user
        { groupType := (sanitizeInput gtP).getD "", groupId := (sanitizeInput giP).getD "" } = true ∧
      handleGetInvitationsByGroup cfg method user gtP giP dres =
        delegateOutcome (DelegateCall.getInvitationsByGroup ((sanitizeInput gtP).getD "")
          ((sanitizeInput giP).getD "")) dres) := by
  unfold handleGetInvitationsByGroup
  split
  · rename_i hm
    exact Or.inl ⟨hm, rfl⟩
  · rename_i hm
    have hm' : method = "GET" := not_not.mp hm
    split
    · rename_i hv
      exact Or.inr (Or.inl ⟨hm', by simpa using hv, rfl⟩)
    · rename_i hv
      have hv' : strTruthy (sanitizeInput gtP) = true ∧ strTruthy (sanitizeInput giP) = true := by
        simpa using hv
      rw [runGate_eq]
      cases h : gateVerdict cfg.canAccessInvitationsByGroup user
          { groupType := (sanitizeInput gtP).getD "", groupId := (sanitizeInput giP).getD "" } with
      | false =>
        refine Or.inr (Or.inr (Or.inl ⟨hm', hv'.1, hv'.2, ?_, ?_⟩))
        · rfl
        · cases hk : cfg.canAccessInvitationsByGroup <;> simp [h, hk]
      | true =>
        refine Or.inr (Or.inr (Or.inr ⟨hm', hv'.1, hv'.2, ?_, ?_⟩))
        · rfl
        · simp [h]

theorem deleteByGroup_cases (cfg : VortexConfig) (method : String)
    (user : Option AuthenticatedUser) (gtP giP : Option String)
    (dres : Except String Unit) :
    (method ≠ "DELETE" ∧
      handleDeleteInvitationsByGroup cfg method user gtP giP dres = methodNotAllowed) ∨
    (method = "DELETE" ∧
      (strTruthy (sanitizeInput gtP) = false ∨ strTruthy (sanitizeInput giP) = false) ∧
      handleDeleteInvitationsByGroup cfg method user gtP giP dres =
        validationError "Invalid group parameters") ∨
    (method = "DELETE" ∧
      strTruthy (sanitizeInput gtP) = true ∧ strTruthy (sanitizeInput giP) = true ∧
      gateVerdict cfg.canDeleteInvitationsByGroup user
        { groupType := (sanitizeInput gtP).getD "", groupId := (sanitizeInput giP).getD "" } = false ∧
      (handleDeleteInvitationsByGroup cfg method user gtP giP dres = accessDeniedHook ∨
       handleDeleteInvitationsByGroup cfg method user gtP giP dres = accessDeniedNoHook)) ∨
    (method = "DELETE" ∧
      strTruthy (sanitizeInput gtP) = true ∧ strTruthy (sanitizeInput giP) = true ∧
      gateVerdict cfg.canDeleteInvitationsByGroup user
        { groupType := (sanitizeInput gtP).getD "", groupId := (sanitizeInput giP).getD "" } = true ∧
      handleDeleteInvitationsByGroup cfg method user gtP giP dres =
        delegateOutcome (DelegateCall.deleteInvitationsByGroup ((sanitizeInput gtP).getD "")
          ((sanitizeInput giP).getD "")) dres) := by
  unfold handleDeleteInvitationsByGroup
  split
  · rename_i hm
    exact Or.inl ⟨hm, rfl⟩
  · rename_i hm
    have hm' : method = "DELETE" := not_not.mp hm
    split
    · rename_i hv
      exact Or.inr (Or.inl ⟨hm', by simpa using hv, rfl⟩)
    · rename_i hv
      have hv' : strTruthy (sanitizeInput gtP) = true ∧ strTruthy (sanitizeInput giP) = true := by
        simpa using hv
      rw [runGate_eq]
      cases h : gateVerdict cfg.canDeleteInvitationsByGroup user
          { groupType := (sanitizeInput gtP).getD "", groupId := (sanitizeInput giP).getD "" } with
      | false =>
        refine Or.inr (Or.inr (Or.inl ⟨hm', hv'.1, hv'.2, ?_, ?_⟩))
        · rfl
        · cases hk : cfg.canDeleteInvitationsByGroup <;> simp [h, hk]
      | true =>
        refine Or.inr (Or.inr (Or.inr ⟨hm', hv'.1, hv'.2, ?_, ?_⟩))
        · rfl
        · simp [h]

theorem sync_cases (cfg : VortexConfig) (method : String)
    (user : Option AuthenticatedUser) (body : SyncBody)
    (dres : Except String Unit) :
    (method ≠ "POST" ∧
      handleSyncInternalInvitation cfg method user body dres = methodNotAllowed) ∨
    (method = "POST" ∧ strTruthy body.creatorId = false ∧
      handleSyncInternalInvitation cfg method user body dres =
        validationError "creatorId is required and must be a string") ∨
    (method = "POST" ∧ strTruthy body.creatorId = true ∧ strTruthy body.targetValue = false ∧
      handleSyncInternalInvitation cfg method user body dres =
        validationError "targetValue is required and must be a string") ∨
    (method = "POST" ∧ strTruthy body.creatorId = true ∧ strTruthy body.targetValue = true ∧
      actionOk body.action = false ∧
      handleSyncInternalInvitation cfg method user body dres =
        validationError "action is required and must be \"accepted\" or \"declined\"") ∨
    (method = "POST" ∧ strTruthy body.creatorId = true ∧ strTruthy body.targetValue = true ∧
      actionOk body.action = true ∧ strTruthy body.componentId = false ∧
      handleSyncInternalInvitation cfg method user body dres =
        validationError "componentId is required and must be a string") ∨
    (method = "POST" ∧ strTruthy body.creatorId = true ∧ strTruthy body.targetValue = true ∧
      actionOk body.action = true ∧ strTruthy body.componentId = true ∧
      gateVerdict cfg.canSyncInternalInvitation user (syncPayloadOf body) = false ∧
      (handleSyncInternalInvitation cfg method user body dres = accessDeniedHook ∨
       handleSyncInternalInvitation cfg method user body dres = accessDeniedNoHook)) ∨
    (method = "POST" ∧ strTruthy body.creatorId = true ∧ strTruthy body.targetValue = true ∧
      actionOk body.action = true ∧ strTruthy body.componentId = true ∧
      gateVerdict cfg.canSyncInternalInvitation user (syncPayloadOf body) = true ∧
      handleSyncInternalInvitation cfg method user body dres =
        delegateOutcome (DelegateCall.syncInternalInvitation (syncPayloadOf body)) dres) := by
  unfold handleSyncInternalInvitation
  split
  · rename_i hm
    exact Or.inl ⟨hm, rfl⟩
  · rename_i hm
    have hm' : method = "POST" := not_not.mp hm
    split
    · rename_i hc
      exact Or.inr (Or.inl ⟨hm', by simpa using hc, rfl⟩)
    · rename_i hc
      have hc' : strTruthy body.creatorId = true := by simpa using hc
      split
      · rename_i ht
        exact Or.inr (Or.inr (Or.inl ⟨hm', hc', by simpa using ht, rfl⟩))
      · rename_i ht
        have ht' : strTruthy body.targetValue = true := by simpa using ht
        split
        · rename_i ha
          exact Or.inr (Or.inr (Or.inr (Or.inl ⟨hm', hc', ht', by simpa using ha, rfl⟩)))
        · rename_i ha
          have ha' : actionOk body.action = true := by simpa using ha
          split
          · rename_i hco
            exact Or.inr (Or.inr (Or.inr (Or.inr (Or.inl
              ⟨hm', hc', ht', ha', by simpa using hco, rfl⟩))))
          · rename_i hco
            have hco' : strTruthy body.componentId = true := by simpa using hco
            rw [runGate_eq]
            cases h : gateVerdict cfg.canSyncInternalInvitation user (syncPayloadOf body) with
            | false =>
              refine Or.inr (Or.inr (Or.inr (Or.inr (Or.inr (Or.inl
                ⟨hm', hc', ht', ha', hco', ?_, ?_⟩)))))
              · rfl
              · cases hk : cfg.canSyncInternalInvitation <;> simp [h, hk]
            | true =>
              refine Or.inr (Or.inr (Or.inr (Or.inr (Or.inr (Or.inr
                ⟨hm', hc', ht', ha', hco', ?_, ?_⟩)))))
              · rfl
              · simp [h]

theorem sanitizeChars_length (l : List Char) : (sanitizeChars l).length ≤ 1000 := by
  unfold sanitizeChars
  rw [List.length_take]
  exact Nat.min_le_left _ _

theorem sanitizeChars_not_stripped (l : List Char) :
    ∀ c ∈ sanitizeChars l, isStrippedChar c = false := by
  intro c hc
  unfold sanitizeChars at hc
  simpa using (List.mem_filter.mp (List.take_subset _ _ hc)).2

theorem trimLeft_ws_cons (c : Char) (hc : c.isWhitespace = true) (l : List Char) :
    trimLeft (c :: l) = trimLeft l := by
  simp [trimLeft, List.dropWhile_cons, hc]

theorem trimRight_ws_append (c : Char) (hc : c.isWhitespace = true) (l : List Char) :
    trimRight (l ++ [c]) = trimRight l := by
  simp [trimRight, List.reverse_append, List.dropWhile_cons, hc]

theorem trimChars_ws_append (l : List Char) (c : Char) (hc : c.isWhitespace = true) :
    trimRight (trimLeft (l ++ [c])) = trimRight (trimLeft l) := by
  induction l with
  | nil => simp [trimLeft, List.dropWhile, hc, trimRight]
  | cons a l ih =>
    by_cases ha : a.isWhitespace
    · rw [show a :: l ++ [c] = a :: (l ++ [c]) from rfl,
        trimLeft_ws_cons a ha, trimLeft_ws_cons a ha]
      exact ih
    · have ha' : a.isWhitespace = false := Bool.eq_false_iff.mpr ha
      have e1 : trimLeft (a :: (l ++ [c])) = a :: (l ++ [c]) := by
        simp [trimLeft, List.dropWhile_cons, ha']
      have e2 : trimLeft (a :: l) = a :: l := by
        simp [trimLeft, List.dropWhile_cons, ha']
      rw [List.cons_append, e1, e2]
      exact trimRight_ws_append c hc (a :: l)

theorem sanitizeStr_pad (s : String) : sanitizeStr (" " ++ s ++ " ") = sanitizeStr s := by
  unfold sanitizeStr sanitizeChars trimChars
  have hdata : (" " ++ s ++ " ").data = ' ' :: (s.data ++ [' ']) := by
    simp
  rw [hdata, trimLeft_ws_cons ' ' (by decide), trimChars_ws_append s.data ' ' (by decide)]

/-- C3: for every input string, sanitization first trims surrounding
whitespace (padding the input with whitespace does not change the
result), removes every occurrence of the four characters, truncates to at
most 1000 code units, and an input whose sanitized result is empty is
treated as absent by the callers (all of whom test JS truthiness, i.e.
`strTruthy`): equivalently, every truthy sanitized value is non-empty,
contains none of the four characters, and is at most 1000 long. -/
theorem claim3_sanitization (s v : String)
    (h : sanitizeInput (some s) = some v) :
    v.data = ((trimChars s.data).filter (fun c => !isStrippedChar c)).take 1000 ∧
    v.data.length ≤ 1000 ∧
    (∀ c ∈ v.data, isStrippedChar c = false) ∧
    sanitizeStr (" " ++ s ++ " ") = sanitizeStr s ∧
    (strTruthy (sanitizeInput (some s)) = false ↔ v = "") := by
  have hs : s.isEmpty = false := by
    by_cases he : s.isEmpty = true
    · simp only [sanitizeInput, he, if_true] at h
      exact absurd h (by simp)
    · exact Bool.eq_false_iff.mpr he
  have hv : v = sanitizeStr s := by
    simp only [sanitizeInput, hs] at h
    exact (Option.some.inj h).symm
  subst hv
  refine ⟨rfl, sanitizeChars_length s.data, sanitizeChars_not_stripped s.data,
    sanitizeStr_pad s, ?_⟩
  simp [sanitizeInput, hs, strTruthy, String.isEmpty_iff]

/-- Witness for C3 at the concrete input `" <ab> "`, whose sanitized
value is `"ab"`. -/
theorem claim3_sanitization_witness :
    sanitizeInput (some " <ab> ") = some "ab" ∧
    (∀ c ∈ ("ab" : String).data, isStrippedChar c = false) ∧
    ("ab" : String).data.length ≤ 1000 :=
  ⟨by decide, (claim3_sanitization " <ab> " "ab" (by decide)).2.2.1,
    (claim3_sanitization " <ab> " "ab" (by decide)).2.1⟩

theorem jwt_cases (cfg : VortexConfig) (method : String) (dres : Except String String) :
    (method ≠ "POST" ∧ handleJwtGeneration cfg method dres = methodNotAllowed) ∨
    (method = "POST" ∧ cfg.authenticateUser = none ∧
      handleJwtGeneration cfg method dres = jwtMissingResolver) ∨
    (method = "POST" ∧ cfg.authenticateUser = some none ∧
      handleJwtGeneration cfg method dres = jwtUnauthorized) ∨
    (method = "POST" ∧ ∃ u, cfg.authenticateUser = some (some u) ∧
      (strTruthy u.userId = false ∨ strTruthy u.userEmail = false) ∧
      handleJwtGeneration cfg method dres = jwtInvalidUserFormat) ∨
    (method = "POST" ∧ ∃ u token, cfg.authenticateUser = some (some u) ∧
      strTruthy u.userId = true ∧ strTruthy u.userEmail = true ∧
      dres = Except.ok token ∧
      handleJwtGeneration cfg method dres = jwtSuccess (buildJwtParams u) token) ∨
    (method = "POST" ∧ ∃ u e, cfg.authenticateUser = some (some u) ∧
      strTruthy u.userId = true ∧ strTruthy u.userEmail = true ∧
      dres = Except.error e ∧
      handleJwtGeneration cfg method dres = jwtFault (buildJwtParams u) e) := by
  unfold handleJwtGeneration
  split
  · rename_i hm
    exact Or.inl ⟨hm, rfl⟩
  · rename_i hm
    have hm' : method = "POST" := not_not.mp hm
    split
    · rename_i hau
      exact Or.inr (Or.inl ⟨hm', hau, rfl⟩)
    · rename_i hau
      exact Or.inr (Or.inr (Or.inl ⟨hm', hau, rfl⟩))
    · rename_i u hau
      split
      · rename_i hbad
        exact Or.inr (Or.inr (Or.inr (Or.inl ⟨hm', u, hau, by simpa using hbad, rfl⟩)))
      · rename_i hbad
        have hok : strTruthy u.userId = true ∧ strTruthy u.userEmail = true := by
          simpa using hbad
        split
        · rename_i token
          exact Or.inr (Or.inr (Or.inr (Or.inr (Or.inl
            ⟨hm', u, token, hau, hok.1, hok.2, rfl, rfl⟩))))
        · rename_i e
          exact Or.inr (Or.inr (Or.inr (Or.inr (Or.inr
            ⟨hm', u, e, hau, hok.1, hok.2, rfl, rfl⟩))))

/-- C6: for POST /jwt, a missing identity resolver is a 500 configuration
failure (not a 401); a resolver returning null is a 401 with body
`{error: "Unauthorized"}`; a resolved identity missing a truthy userId or
userEmail is a 500 configuration failure; an identity with both yields a
200 response carrying the generated token. -/
theorem claim6_jwt_statuses (cfg : VortexConfig) (dres : Except String String) :
    (cfg.authenticateUser = none →
      (handleJwtGeneration cfg "POST" dres).status = 500 ∧
      (handleJwtGeneration cfg "POST" dres).status ≠ 401 ∧
      (handleJwtGeneration cfg "POST" dres).error =
        some "JWT generation requires authentication configuration. Please configure authenticateUser hook.") ∧
    (cfg.authenticateUser = some none →
      (handleJwtGeneration cfg "POST" dres).status = 401 ∧
      (handleJwtGeneration cfg "POST" dres).error = some "Unauthorized") ∧
    (∀ u, cfg.authenticateUser = some (some u) →
      (strTruthy u.userId = false ∨ strTruthy u.userEmail = false) →
      (handleJwtGeneration cfg "POST" dres).status = 500 ∧
      (handleJwtGeneration cfg "POST" dres).status ≠ 401 ∧
      (handleJwtGeneration cfg "POST" dres).error =
        some "Invalid user format: must provide userId and userEmail") ∧
    (∀ u token, cfg.authenticateUser = some (some u) →
      strTruthy u.userId = true → strTruthy u.userEmail = true →
      dres = Except.ok token →
      (handleJwtGeneration cfg "POST" dres).status = 200 ∧
      (handleJwtGeneration cfg "POST" dres).error = none ∧
      (handleJwtGeneration cfg "POST" dres).jwtToken = some token) := by
  refine ⟨?_, ?_, ?_, ?_⟩
  · intro hau
    simp [handleJwtGeneration, hau, jwtMissingResolver]
  · intro hau
    simp [handleJwtGeneration, hau, jwtUnauthorized]
  · intro u hau hbad
    rcases hbad with hb | hb <;>
      simp [handleJwtGeneration, hau, hb, jwtInvalidUserFormat]
  · intro u token hau h1 h2 hdres
    simp [handleJwtGeneration, hau, h1, h2, hdres, jwtSuccess]

/-- Witness for C6: the three non-vacuous hypotheses discharged at the
concrete configurations `baseConfig`, `jwtNullConfig` and `jwtConfig`. -/
theorem claim6_jwt_statuses_witness :
    ((handleJwtGeneration baseConfig "POST" (Except.ok "t")).status = 500 ∧
      (handleJwtGeneration baseConfig "POST" (Except.ok "t")).status ≠ 401 ∧
      (handleJwtGeneration baseConfig "POST" (Except.ok "t")).error =
        some "JWT generation requires authentication configuration. Please configure authenticateUser hook.") ∧
    ((handleJwtGeneration jwtNullConfig "POST" (Except.ok "t")).status = 401 ∧
      (handleJwtGeneration jwtNullConfig "POST" (Except.ok "t")).error = some "Unauthorized") ∧
    ((handleJwtGeneration jwtConfig "POST" (Except.ok "t")).status = 200 ∧
      (handleJwtGeneration jwtConfig "POST" (Except.ok "t")).error = none ∧
      (handleJwtGeneration jwtConfig "POST" (Except.ok "t")).jwtToken = some "t") :=
  ⟨(claim6_jwt_statuses baseConfig (Except.ok "t")).1 rfl,
   (claim6_jwt_statuses jwtNullConfig (Except.ok "t")).2.1 rfl,
   (claim6_jwt_statuses jwtConfig (Except.ok "t")).2.2.2 sampleUser "t" rfl rfl rfl rfl⟩

/-- C7: the params passed to the external issuer carry the optional
display name and avatar exactly when truthy on the resolved identity, and
the admin-scope and allowed-email-domain lists exactly when present and
non-empty; present non-empty values are forwarded unchanged. -/
theorem claim7_jwt_params (cfg : VortexConfig) (dres : Except String String)
    (u : AuthenticatedUser)
    (hau : cfg.authenticateUser = some (some u))
    (hid : strTruthy u.userId = true) (hem : strTruthy u.userEmail = true) :
    (handleJwtGeneration cfg "POST" dres).call =
      some (DelegateCall.generateJwt (buildJwtParams u)) ∧
    (strTruthy u.userName = true → (buildJwtParams u).user.userName = u.userName) ∧
    (strTruthy u.userName = false → (buildJwtParams u).user.userName = none) ∧
    (strTruthy u.userAvatarUrl = true →
      (buildJwtParams u).user.userAvatarUrl = u.userAvatarUrl) ∧
    (strTruthy u.userAvatarUrl = false → (buildJwtParams u).user.userAvatarUrl = none) ∧
    (∀ l, u.adminScopes = some l → l ≠ [] →
      (buildJwtParams u).user.adminScopes = some l) ∧
    (u.adminScopes = some [] → (buildJwtParams u).user.adminScopes = none) ∧
    (u.adminScopes = none → (buildJwtParams u).user.adminScopes = none) ∧
    (∀ l, u.allowedEmailDomains = some l → l ≠ [] →
      (buildJwtParams u).user.allowedEmailDomains = some l) ∧
    (u.allowedEmailDomains = some [] → (buildJwtParams u).user.allowedEmailDomains = none) ∧
    (u.allowedEmailDomains = none → (buildJwtParams u).user.allowedEmailDomains = none) := by
  refine ⟨?_, ?_, ?_, ?_, ?_, ?_, ?_, ?_, ?_, ?_, ?_⟩
  · cases dres <;> simp [handleJwtGeneration, hau, hid, hem, jwtSuccess, jwtFault]
  · intro h
    simp [buildJwtParams, h]
  · intro h
    simp [buildJwtParams, h]
  · intro h
    simp [buildJwtParams, h]
  · intro h
    simp [buildJwtParams, h]
  · intro l hl hne
    simp [buildJwtParams, hl, hne]
  · intro h
    simp [buildJwtParams, h]
  · intro h
    simp [buildJwtParams, h]
  · intro l hl hne
    simp [buildJwtParams, hl, hne]
  · intro h
    simp [buildJwtParams, h]
  · intro h
    simp [buildJwtParams, h]

/-- Witness for C7 at `fullJwtUser`: truthy name forwarded, non-empty
admin scopes forwarded unchanged, empty allowed-email-domain list
omitted. -/
theorem claim7_jwt_params_witness :
    (handleJwtGeneration fullJwtConfig "POST" (Except.ok "t")).call =
      some (DelegateCall.generateJwt (buildJwtParams fullJwtUser)) ∧
    (buildJwtParams fullJwtUser).user.userName = some "Ann" ∧
    (buildJwtParams fullJwtUser).user.adminScopes = some ["autojoin"] ∧
    (buildJwtParams fullJwtUser).user.allowedEmailDomains = none :=
  ⟨(claim7_jwt_params fullJwtConfig (Except.ok "t") fullJwtUser rfl rfl rfl).1,
   (claim7_jwt_params fullJwtConfig (Except.ok "t") fullJwtUser rfl rfl rfl).2.1 rfl,
   (claim7_jwt_params fullJwtConfig (Except.ok "t") fullJwtUser rfl rfl rfl).2.2.2.2.2.1
     ["autojoin"] rfl (by decide),
   (claim7_jwt_params fullJwtConfig (Except.ok "t") fullJwtUser rfl rfl rfl).2.2.2.2.2.2.2.2.2.1
     rfl⟩

/-- C2 counterexample: the claim that every delegate fault is surfaced
with its own message AND logged fails twice at concrete inputs: the
accept operation logs but answers the generic message (not the fault's
"boom"), and the JWT operation surfaces "boom" as-is but does not log. -/
theorem claim2_counterexample :
    (handleAcceptInvitations baseConfig "POST" (some sampleUser) emailTargetBody
        (Except.error "boom")).call.isSome = true ∧
    (handleAcceptInvitations baseConfig "POST" (some sampleUser) emailTargetBody
        (Except.error "boom")).status = 500 ∧
    (handleAcceptInvitations baseConfig "POST" (some sampleUser) emailTargetBody
        (Except.error "boom")).logged = true ∧
    (handleAcceptInvitations baseConfig "POST" (some sampleUser) emailTargetBody
        (Except.error "boom")).error =
      some "An error occurred while processing your request" ∧
    (handleAcceptInvitations baseConfig "POST" (some sampleUser) emailTargetBody
        (Except.error "boom")).error ≠ some "boom" ∧
    (handleJwtGeneration jwtConfig "POST" (Except.error "boom")).error = some "boom" ∧
    (handleJwtGeneration jwtConfig "POST" (Except.error "boom")).logged = false :=
  ⟨rfl, rfl, rfl, rfl, by decide, rfl, rfl⟩

/-- C2 as amended: every delegate fault is caught at the operation
boundary and answered at 500 — the eight invitation operations log the
original error and answer the fixed generic message, while the JWT
operation surfaces the fault message as-is and does not log. -/
theorem claim2_fault_handling :
    (∀ cfg method user ttq tvq c e,
      (handleGetInvitationsByTarget cfg method user ttq tvq (Except.error e)).call = some c →
      (handleGetInvitationsByTarget cfg method user ttq tvq (Except.error e)).status = 500 ∧
      (handleGetInvitationsByTarget cfg method user ttq tvq (Except.error e)).error =
        some "An error occurred while processing your request" ∧
      (handleGetInvitationsByTarget cfg method user ttq tvq (Except.error e)).logged = true) ∧
    (∀ cfg method user idP c e,
      (handleGetInvitation cfg method user idP (Except.error e)).call = some c →
      (handleGetInvitation cfg method user idP (Except.error e)).status = 500 ∧
      (handleGetInvitation cfg method user idP (Except.error e)).error =
        some "An error occurred while processing your request" ∧
      (handleGetInvitation cfg method user idP (Except.error e)).logged = true) ∧
    (∀ cfg method user idP c e,
      (handleRevokeInvitation cfg method user idP (Except.error e)).call = some c →
      (handleRevokeInvitation cfg method user idP (Except.error e)).status = 500 ∧
      (handleRevokeInvitation cfg method user idP (Except.error e)).error =
        some "An error occurred while processing your request" ∧
      (handleRevokeInvitation cfg method user idP (Except.error e)).logged = true) ∧
    (∀ cfg method auser body c e,
      (handleAcceptInvitations cfg method auser body (Except.error e)).call = some c →
      (handleAcceptInvitations cfg method auser body (Except.error e)).status = 500 ∧
      (handleAcceptInvitations cfg method auser body (Except.error e)).error =
        some "An error occurred while processing your request" ∧
      (handleAcceptInvitations cfg method auser body (Except.error e)).logged = true) ∧
    (∀ cfg method user gtP giP c e,
      (handleGetInvitationsByGroup cfg method user gtP giP (Except.error e)).call = some c →
      (handleGetInvitationsByGroup cfg method user gtP giP (Except.error e)).status = 500 ∧
      (handleGetInvitationsByGroup cfg method user gtP giP (Except.error e)).error =
        some "An error occurred while processing your request" ∧
      (handleGetInvitationsByGroup cfg method user gtP giP (Except.error e)).logged = true) ∧
    (∀ cfg method user gtP giP c e,
      (handleDeleteInvitationsByGroup cfg method user gtP giP (Except.error e)).call = some c →
      (handleDeleteInvitationsByGroup cfg method user gtP giP (Except.error e)).status = 500 ∧
      (handleDeleteInvitationsByGroup cfg method user gtP giP (Except.error e)).error =
        some "An error occurred while processing your request" ∧
      (handleDeleteInvitationsByGroup cfg method user gtP giP (Except.error e)).logged = true) ∧
    (∀ cfg method user body c e,
      (handleSyncInternalInvitation cfg method user body (Except.error e)).call = some c →
      (handleSyncInternalInvitation cfg method user body (Except.error e)).status = 500 ∧
      (handleSyncInternalInvitation cfg method user body (Except.error e)).error =
        some "An error occurred while processing your request" ∧
      (handleSyncInternalInvitation cfg method user body (Except.error e)).logged = true) ∧
    (∀ cfg method user idP c e,
      (handleReinvite cfg method user idP (Except.error e)).call = some c →
      (handleReinvite cfg method user idP (Except.error e)).status = 500 ∧
      (handleReinvite cfg method user idP (Except.error e)).error =
        some "An error occurred while processing your request" ∧
      (handleReinvite cfg method user idP (Except.error e)).logged = true) ∧
    (∀ cfg c e,
      (handleJwtGeneration cfg "POST" (Except.error e)).call = some c →
      (handleJwtGeneration cfg "POST" (Except.error e)).status = 500 ∧
      (handleJwtGeneration cfg "POST" (Except.error e)).error = some e ∧
      (handleJwtGeneration cfg "POST" (Except.error e)).logged = false) := by
  refine ⟨?_, ?_, ?_, ?_, ?_, ?_, ?_, ?_, ?_⟩
  · intro cfg method user ttq tvq c e h
    rcases getByTarget_cases cfg method user ttq tvq (Except.error e) with
      ⟨_, ho⟩ | ⟨_, _, ho | ho⟩ | ⟨_, _, _, ho⟩ | ⟨_, _, _, _, _, ho⟩ | ⟨_, _, _, _, _, ho⟩ <;>
      rw [ho] at h ⊢ <;>
      simp_all [methodNotAllowed, accessDeniedHook, accessDeniedNoHook,
        validationErrorPostGate, validationError, delegateOutcome]
  · intro cfg method user idP c e h
    rcases getInvitation_cases cfg method user idP (Except.error e) with
      ⟨_, ho⟩ | ⟨_, _, ho⟩ | ⟨_, _, _, ho | ho⟩ | ⟨_, _, _, ho⟩ <;>
      rw [ho] at h ⊢ <;>
      simp_all [methodNotAllowed, accessDeniedHook, accessDeniedNoHook,
        validationError, delegateOutcome]
  · intro cfg method user idP c e h
    rcases revoke_cases cfg method user idP (Except.error e) with
      ⟨_, ho⟩ | ⟨_, _, ho⟩ | ⟨_, _, _, ho | ho⟩ | ⟨_, _, _, ho⟩ <;>
      rw [ho] at h ⊢ <;>
      simp_all [methodNotAllowed, accessDeniedHook, accessDeniedNoHook,
        validationError, delegateOutcome]
  · intro cfg method auser body c e h
    rcases accept_cases cfg method auser body (Except.error e) with
      ⟨_, ho⟩ | ⟨_, _, ho⟩ | ⟨_, _, _, _, ho⟩ | ⟨_, _, _, _, _, ho⟩ |
      ⟨_, _, _, _, _, _, _, ho⟩ | ⟨_, _, _, _, _, _, _, _, ho⟩ |
      ⟨_, _, _, _, _, _, _, _, ⟨_, ho | ho⟩ | ⟨_, ho⟩⟩ <;>
      rw [ho] at h ⊢ <;>
      simp_all [methodNotAllowed, accessDeniedHook, accessDeniedNoHook,
        validationError, delegateOutcome]
  · intro cfg method user gtP giP c e h
    rcases getByGroup_cases cfg method user gtP giP (Except.error e) with
      ⟨_, ho⟩ | ⟨_, _, ho⟩ | ⟨_, _, _, _, ho | ho⟩ | ⟨_, _, _, _, ho⟩ <;>
      rw [ho] at h ⊢ <;>
      simp_all [methodNotAllowed, accessDeniedHook, accessDeniedNoHook,
        validationError, delegateOutcome]
  · intro cfg method user gtP giP c e h
    rcases deleteByGroup_cases cfg method user gtP giP (Except.error e) with
      ⟨_, ho⟩ | ⟨_, _, ho⟩ | ⟨_, _, _, _, ho | ho⟩ | ⟨_, _, _, _, ho⟩ <;>
      rw [ho] at h ⊢ <;>
      simp_all [methodNotAllowed, accessDeniedHook, accessDeniedNoHook,
        validationError, delegateOutcome]
  · intro cfg method user body c e h
    rcases sync_cases cfg method user body (Except.error e) with
      ⟨_, ho⟩ | ⟨_, _, ho⟩ | ⟨_, _, _, ho⟩ | ⟨_, _, _, _, ho⟩ | ⟨_, _, _, _, _, ho⟩ |
      ⟨_, _, _, _, _, _, ho | ho⟩ | ⟨_, _, _, _, _, _, ho⟩ <;>
      rw [ho] at h ⊢ <;>
      simp_all [methodNotAllowed, accessDeniedHook, accessDeniedNoHook,
        validationError, delegateOutcome]
  · intro cfg method user idP c e h
    rcases reinvite_cases cfg method user idP (Except.error e) with
      ⟨_, ho⟩ | ⟨_, _, ho⟩ | ⟨_, _, _, ho | ho⟩ | ⟨_, _, _, ho⟩ <;>
      rw [ho] at h ⊢ <;>
      simp_all [methodNotAllowed, accessDeniedHook, accessDeniedNoHook,
        validationError, delegateOutcome]
  · intro cfg c e h
    rcases jwt_cases cfg "POST" (Except.error e) with
      ⟨hm, ho⟩ | ⟨_, _, ho⟩ | ⟨_, _, ho⟩ | ⟨_, _, _, _, ho⟩ | ⟨_, _, _, _, _, _, hd, ho⟩ |
      ⟨_, _, _, _, _, _, hd, ho⟩
    · exact absurd rfl hm
    · rw [ho] at h ⊢
      simp_all [jwtMissingResolver]
    · rw [ho] at h ⊢
      simp_all [jwtUnauthorized]
    · rw [ho] at h ⊢
      simp_all [jwtInvalidUserFormat]
    · exact absurd hd (by simp)
    · rw [ho] at h ⊢
      have he : _ = e := (Except.error.inj hd).symm
      simp_all [jwtFault]

/-- Witness for C2 as amended: the accept and JWT conclusions at the
concrete fault "boom". -/
theorem claim2_fault_handling_witness :
    ((handleAcceptInvitations baseConfig "POST" (some sampleUser) emailTargetBody
        (Except.error "boom")).status = 500 ∧
      (handleAcceptInvitations baseConfig "POST" (some sampleUser) emailTargetBody
        (Except.error "boom")).error =
        some "An error occurred while processing your request" ∧
      (handleAcceptInvitations baseConfig "POST" (some sampleUser) emailTargetBody
        (Except.error "boom")).logged = true) ∧
    ((handleJwtGeneration jwtConfig "POST" (Except.error "boom")).status = 500 ∧
      (handleJwtGeneration jwtConfig "POST" (Except.error "boom")).error = some "boom" ∧
      (handleJwtGeneration jwtConfig "POST" (Except.error "boom")).logged = false) :=
  ⟨claim2_fault_handling.2.2.2.1 baseConfig "POST" (some sampleUser) emailTargetBody
      (DelegateCall.acceptInvitations ["i1"] (AcceptData.targetData "email" "a@b.com"))
      "boom" (by decide),
   claim2_fault_handling.2.2.2.2.2.2.2.2 jwtConfig
      (DelegateCall.generateJwt (buildJwtParams sampleUser)) "boom" rfl⟩

theorem delegateOutcome_gate (c : DelegateCall) (d : Except String Unit) :
    (delegateOutcome c d).gate = some true := by
  cases d <;> rfl

theorem delegateOutcome_call (c : DelegateCall) (d : Except String Unit) :
    (delegateOutcome c d).call = some c := by
  cases d <;> rfl

/-- C1 counterexample: for get-by-target with a configured predicate that
constantly returns true, a request with missing query parameters records
an allowing access decision yet never invokes the delegate and answers
400 — so "the delegate is invoked exactly when the predicate returned
true" fails in the forward direction. -/
theorem claim1_counterexample :
    (handleGetInvitationsByTarget allowByTargetConfig "GET" none none none
        (Except.ok ())).gate = some true ∧
    (handleGetInvitationsByTarget allowByTargetConfig "GET" none none none
        (Except.ok ())).call = none ∧
    (handleGetInvitationsByTarget allowByTargetConfig "GET" none none none
        (Except.ok ())).status = 400 :=
  ⟨rfl, rfl, rfl⟩

/-- C1 as amended: for every invitation operation the delegate is invoked
only after an allowing access decision; an allowing decision means the
configured predicate returned true (identity may be None) or, with no
predicate, that an identity was resolved; every denial is a 403 with no
delegate call.  For the seven operations that validate before the gate an
allowing decision also guarantees the delegate is invoked; for
get-by-target a true predicate may still be followed by a 400 validation
failure (see the counterexample). -/
theorem claim1_access_gate :
    (∀ cfg method user ttq tvq dres,
      ((handleGetInvitationsByTarget cfg method user ttq tvq dres).call.isSome = true →
        (handleGetInvitationsByTarget cfg method user ttq tvq dres).gate = some true) ∧
      ((handleGetInvitationsByTarget cfg method user ttq tvq dres).gate = some true →
        gateVerdictNR cfg.canAccessInvitationsByTarget user = true) ∧
      ((handleGetInvitationsByTarget cfg method user ttq tvq dres).gate = some false →
        (handleGetInvitationsByTarget cfg method user ttq tvq dres).status = 403 ∧
        (handleGetInvitationsByTarget cfg method user ttq tvq dres).call = none ∧
        gateVerdictNR cfg.canAccessInvitationsByTarget user = false)) ∧
    (∀ cfg method user idP dres,
      ((handleGetInvitation cfg method user idP dres).call.isSome = true →
        (handleGetInvitation cfg method user idP dres).gate = some true) ∧
      ((handleGetInvitation cfg method user idP dres).gate = some true →
        gateVerdict cfg.canAccessInvitation user ((sanitizeInput idP).getD "") = true ∧
        (handleGetInvitation cfg method user idP dres).call.isSome = true) ∧
      ((handleGetInvitation cfg method user idP dres).gate = some false →
        (handleGetInvitation cfg method user idP dres).status = 403 ∧
        (handleGetInvitation cfg method user idP dres).call = none ∧
        gateVerdict cfg.canAccessInvitation user ((sanitizeInput idP).getD "") = false)) ∧
    (∀ cfg method user idP dres,
      ((handleRevokeInvitation cfg method user idP dres).call.isSome = true →
        (handleRevokeInvitation cfg method user idP dres).gate = some true) ∧
      ((handleRevokeInvitation cfg method user idP dres).gate = some true →
        gateVerdict cfg.canDeleteInvitation user ((sanitizeInput idP).getD "") = true ∧
        (handleRevokeInvitation cfg method user idP dres).call.isSome = true) ∧
      ((handleRevokeInvitation cfg method user idP dres).gate = some false →
        (handleRevokeInvitation cfg method user idP dres).status = 403 ∧
        (handleRevokeInvitation cfg method user idP dres).call = none ∧
        gateVerdict cfg.canDeleteInvitation user ((sanitizeInput idP).getD "") = false)) ∧
    (∀ cfg method auser body dres,
      ((handleAcceptInvitations cfg method auser body dres).call.isSome = true →
        (handleAcceptInvitations cfg method auser body dres).gate = some true) ∧
      ((handleAcceptInvitations cfg method auser body dres).gate = some true →
        gateVerdict cfg.canAcceptInvitations auser
          { invitationIds := sanitizeIds (body.invitationIds.getD []),
            target := body.target, user := body.user } = true ∧
        (handleAcceptInvitations cfg method auser body dres).call.isSome = true) ∧
      ((handleAcceptInvitations cfg method auser body dres).gate = some false →
        (handleAcceptInvitations cfg method auser body dres).status = 403 ∧
        (handleAcceptInvitations cfg method auser body dres).call = none ∧
        gateVerdict cfg.canAcceptInvitations auser
          { invitationIds := sanitizeIds (body.invitationIds.getD []),
            target := body.target, user := body.user } = false)) ∧
    (∀ cfg method user gtP giP dres,
      ((handleGetInvitationsByGroup cfg method user gtP giP dres).call.isSome = true →
        (handleGetInvitationsByGroup cfg method user gtP giP dres).gate = some true) ∧
      ((handleGetInvitationsByGroup cfg method user gtP giP dres).gate = some true →
        gateVerdict cfg.canAccessInvitationsByGroup user
          { groupType := (sanitizeInput gtP).getD "",
            groupId := (sanitizeInput giP).getD "" } = true ∧
        (handleGetInvitationsByGroup cfg method user gtP giP dres).call.isSome = true) ∧
      ((handleGetInvitationsByGroup cfg method user gtP giP dres).gate = some false →
        (handleGetInvitationsByGroup cfg method user gtP giP dres).status = 403 ∧
        (handleGetInvitationsByGroup cfg method user gtP giP dres).call = none ∧
        gateVerdict cfg.canAccessInvitationsByGroup user
          { groupType := (sanitizeInput gtP).getD "",
            groupId := (sanitizeInput giP).getD "" } = false)) ∧
    (∀ cfg method user gtP giP dres,
      ((handleDeleteInvitationsByGroup cfg method user gtP giP dres).call.isSome = true →
        (handleDeleteInvitationsByGroup cfg method user gtP giP dres).gate = some true) ∧
      ((handleDeleteInvitationsByGroup cfg method user gtP giP dres).gate = some true →
        gateVerdict cfg.canDeleteInvitationsByGroup user
          { groupType := (sanitizeInput gtP).getD "",
            groupId := (sanitizeInput giP).getD "" } = true ∧
        (handleDeleteInvitationsByGroup cfg method user gtP giP dres).call.isSome = true) ∧
      ((handleDeleteInvitationsByGroup cfg method user gtP giP dres).gate = some false →
        (handleDeleteInvitationsByGroup cfg method user gtP giP dres).status = 403 ∧
        (handleDeleteInvitationsByGroup cfg method user gtP giP dres).call = none ∧
        gateVerdict cfg.canDeleteInvitationsByGroup user
          { groupType := (sanitizeInput gtP).getD "",
            groupId := (sanitizeInput giP).getD "" } = false)) ∧
    (∀ cfg method user body dres,
      ((handleSyncInternalInvitation cfg method user body dres).call.isSome = true →
        (handleSyncInternalInvitation cfg method user body dres).gate = some true) ∧
      ((handleSyncInternalInvitation cfg method user body dres).gate = some true →
        gateVerdict cfg.canSyncInternalInvitation user (syncPayloadOf body) = true ∧
        (handleSyncInternalInvitation cfg method user body dres).call.isSome = true) ∧
      ((handleSyncInternalInvitation cfg method user body dres).gate = some false →
        (handleSyncInternalInvitation cfg method user body dres).status = 403 ∧
        (handleSyncInternalInvitation cfg method user body dres).call = none ∧
        gateVerdict cfg.canSyncInternalInvitation user (syncPayloadOf body) = false)) ∧
    (∀ cfg method user idP dres,
      ((handleReinvite cfg method user idP dres).call.isSome = true →
        (handleReinvite cfg method user idP dres).gate = some true) ∧
      ((handleReinvite cfg method user idP dres).gate = some true →
        gateVerdict cfg.canReinvite user ((sanitizeInput idP).getD "") = true ∧
        (handleReinvite cfg method user idP dres).call.isSome = true) ∧
      ((handleReinvite cfg method user idP dres).gate = some false →
        (handleReinvite cfg method user idP dres).status = 403 ∧
        (handleReinvite cfg method user idP dres).call = none ∧
        gateVerdict cfg.canReinvite user ((sanitizeInput idP).getD "") = false)) := by
  refine ⟨?_, ?_, ?_, ?_, ?_, ?_, ?_, ?_⟩
  · intro cfg method user ttq tvq dres
    rcases getByTarget_cases cfg method user ttq tvq dres with
      ⟨_, ho⟩ | ⟨_, hg, ho | ho⟩ | ⟨_, hg, _, ho⟩ | ⟨_, hg, _, _, _, ho⟩ |
      ⟨_, hg, _, _, _, ho⟩ <;>
      rw [ho] <;>
      simp_all [methodNotAllowed, validationError, validationErrorPostGate,
        accessDeniedHook, accessDeniedNoHook, delegateOutcome_gate, delegateOutcome_call]
  · intro cfg method user idP dres
    rcases getInvitation_cases cfg method user idP dres with
      ⟨_, ho⟩ | ⟨_, _, ho⟩ | ⟨_, _, hg, ho | ho⟩ | ⟨_, _, hg, ho⟩ <;>
      rw [ho] <;>
      simp_all [methodNotAllowed, validationError, accessDeniedHook, accessDeniedNoHook,
        delegateOutcome_gate, delegateOutcome_call]
  · intro cfg method user idP dres
    rcases revoke_cases cfg method user idP dres with
      ⟨_, ho⟩ | ⟨_, _, ho⟩ | ⟨_, _, hg, ho | ho⟩ | ⟨_, _, hg, ho⟩ <;>
      rw [ho] <;>
      simp_all [methodNotAllowed, validationError, accessDeniedHook, accessDeniedNoHook,
        delegateOutcome_gate, delegateOutcome_call]
  · intro cfg method auser body dres
    rcases accept_cases cfg method auser body dres with
      ⟨_, ho⟩ | ⟨_, hids, ho⟩ | ⟨_, ids, hids, _, ho⟩ | ⟨_, ids, hids, _, _, ho⟩ |
      ⟨_, ids, hids, _, _, _, _, ho⟩ | ⟨_, ids, _, hids, _, _, _, _, ho⟩ |
      ⟨_, ids, d, hids, _, _, _, _, ⟨hg, ho | ho⟩ | ⟨hg, ho⟩⟩ <;>
      rw [ho] <;>
      simp_all [methodNotAllowed, validationError, accessDeniedHook, accessDeniedNoHook,
        delegateOutcome_gate, delegateOutcome_call]
  · intro cfg method user gtP giP dres
    rcases getByGroup_cases cfg method user gtP giP dres with
      ⟨_, ho⟩ | ⟨_, _, ho⟩ | ⟨_, _, _, hg, ho | ho⟩ | ⟨_, _, _, hg, ho⟩ <;>
      rw [ho] <;>
      simp_all [methodNotAllowed, validationError, accessDeniedHook, accessDeniedNoHook,
        delegateOutcome_gate, delegateOutcome_call]
  · intro cfg method user gtP giP dres
    rcases deleteByGroup_cases cfg method user gtP giP dres with
      ⟨_, ho⟩ | ⟨_, _, ho⟩ | ⟨_, _, _, hg, ho | ho⟩ | ⟨_, _, _, hg, ho⟩ <;>
      rw [ho] <;>
      simp_all [methodNotAllowed, validationError, accessDeniedHook, accessDeniedNoHook,
        delegateOutcome_gate, delegateOutcome_call]
  · intro cfg method user body dres
    rcases sync_cases cfg method user body dres with
      ⟨_, ho⟩ | ⟨_, _, ho⟩ | ⟨_, _, _, ho⟩ | ⟨_, _, _, _, ho⟩ | ⟨_, _, _, _, _, ho⟩ |
      ⟨_, _, _, _, _, hg, ho | ho⟩ | ⟨_, _, _, _, _, hg, ho⟩ <;>
      rw [ho] <;>
      simp_all [methodNotAllowed, validationError, accessDeniedHook, accessDeniedNoHook,
        delegateOutcome_gate, delegateOutcome_call]
  · intro cfg method user idP dres
    rcases reinvite_cases cfg method user idP dres with
      ⟨_, ho⟩ | ⟨_, _, ho⟩ | ⟨_, _, hg, ho | ho⟩ | ⟨_, _, hg, ho⟩ <;>
      rw [ho] <;>
      simp_all [methodNotAllowed, validationError, accessDeniedHook, accessDeniedNoHook,
        delegateOutcome_gate, delegateOutcome_call]

/-- Witness for C1 as amended: concrete denial (no hook, no identity) for
get-by-id, with the 403, the absent delegate call and the false verdict. -/
theorem claim1_access_gate_witness :
    (handleGetInvitation baseConfig "GET" none (some "abc") (Except.ok ())).status = 403 ∧
    (handleGetInvitation baseConfig "GET" none (some "abc") (Except.ok ())).call = none ∧
    gateVerdict baseConfig.canAccessInvitation none
      ((sanitizeInput (some "abc")).getD "") = false :=
  (claim1_access_gate.2.1 baseConfig "GET" none (some "abc") (Except.ok ())).2.2 rfl

/-- C9 counterexample: a get-by-target request with malformed input
(missing targetType/targetValue) and no configured hook and no resolved
identity answers 403, not 400 — the gate runs before input validation in
this operation, contradicting the claimed fixed order. -/
theorem claim9_counterexample :
    strTruthy (sanitizeInput (none : Option String)) = false ∧
    (handleGetInvitationsByTarget baseConfig "GET" none none none
        (Except.ok ())).status = 403 ∧
    (handleGetInvitationsByTarget baseConfig "GET" none none none
        (Except.ok ())).status ≠ 400 ∧
    (handleGetInvitationsByTarget baseConfig "GET" none none none
        (Except.ok ())).error =
      some "Access denied. Configure access control hooks for invitation endpoints." :=
  ⟨rfl, rfl, by decide, rfl⟩

/-- C9 as amended: seven of the eight invitation operations parse and
validate their input before identity resolution and the access gate, so
malformed input yields the 400 validation failure regardless of the
configuration and of whether an identity resolves; get-by-target instead
evaluates the access gate first, so its gate denial (403) precedes any
validation failure. -/
theorem claim9_pipeline_order :
    (∀ cfg user idP dres, strTruthy (sanitizeInput idP) = false →
      handleGetInvitation cfg "GET" user idP dres =
        validationError "Invalid invitation ID") ∧
    (∀ cfg user idP dres, strTruthy (sanitizeInput idP) = false →
      handleRevokeInvitation cfg "DELETE" user idP dres =
        validationError "Invalid invitation ID") ∧
    (∀ cfg user idP dres, strTruthy (sanitizeInput idP) = false →
      handleReinvite cfg "POST" user idP dres =
        validationError "Invalid invitation ID") ∧
    (∀ cfg auser body dres, body.invitationIds = none →
      handleAcceptInvitations cfg "POST" auser body dres =
        validationError "invitationIds must be a non-empty array") ∧
    (∀ cfg user gtP giP dres, strTruthy (sanitizeInput gtP) = false →
      handleGetInvitationsByGroup cfg "GET" user gtP giP dres =
        validationError "Invalid group parameters") ∧
    (∀ cfg user gtP giP dres, strTruthy (sanitizeInput gtP) = false →
      handleDeleteInvitationsByGroup cfg "DELETE" user gtP giP dres =
        validationError "Invalid group parameters") ∧
    (∀ cfg user body dres, strTruthy body.creatorId = false →
      handleSyncInternalInvitation cfg "POST" user body dres =
        validationError "creatorId is required and must be a string") ∧
    (∀ cfg user ttq tvq dres p, cfg.canAccessInvitationsByTarget = some p →
      p user = false →
      handleGetInvitationsByTarget cfg "GET" user ttq tvq dres = accessDeniedHook) ∧
    (∀ cfg user ttq tvq dres, cfg.canAccessInvitationsByTarget = none → user = none →
      handleGetInvitationsByTarget cfg "GET" user ttq tvq dres = accessDeniedNoHook) := by
  refine ⟨?_, ?_, ?_, ?_, ?_, ?_, ?_, ?_, ?_⟩
  · intro cfg user idP dres h
    simp [handleGetInvitation, h]
  · intro cfg user idP dres h
    simp [handleRevokeInvitation, h]
  · intro cfg user idP dres h
    simp [handleReinvite, h]
  · intro cfg auser body dres h
    simp [handleAcceptInvitations, h]
  · intro cfg user gtP giP dres h
    simp [handleGetInvitationsByGroup, h]
  · intro cfg user gtP giP dres h
    simp [handleDeleteInvitationsByGroup, h]
  · intro cfg user body dres h
    simp [handleSyncInternalInvitation, h]
  · intro cfg user ttq tvq dres p hk hp
    simp [handleGetInvitationsByTarget, runGateNR, hk, hp]
  · intro cfg user ttq tvq dres hk hu
    simp [handleGetInvitationsByTarget, runGateNR, hk, hu]

/-- Witness for C9 as amended: a malformed get-by-id request answers the
400 validation failure even with no hook configured and no identity
resolved, and a get-by-target request under a false predicate answers
403. -/
theorem claim9_pipeline_order_witness :
    handleGetInvitation baseConfig "GET" none none (Except.ok ()) =
      validationError "Invalid invitation ID" ∧
    handleGetInvitationsByTarget
        { baseConfig with canAccessInvitationsByTarget := some (fun _ => false) }
        "GET" none none none (Except.ok ()) = accessDeniedHook :=
  ⟨claim9_pipeline_order.1 baseConfig none none (Except.ok ()) rfl,
   claim9_pipeline_order.2.2.2.2.2.2.2.1
     { baseConfig with canAccessInvitationsByTarget := some (fun _ => false) }
     none none none (Except.ok ()) (fun _ => false) rfl rfl⟩

/-- C4: for the accept operation, an empty submitted id list or one that
shrinks under sanitization yields a 400 with no delegate call, and the
delegate is only ever invoked with the sanitized list whose length equals
the submitted list's. -/
theorem claim4_accept_id_list (cfg : VortexConfig) (auser : Option AuthenticatedUser)
    (body : AcceptBody) (dres : Except String Unit) :
    (∀ ids, body.invitationIds = some ids →
      (ids = [] ∨ (sanitizeIds ids).length ≠ ids.length) →
      (handleAcceptInvitations cfg "POST" auser body dres).status = 400 ∧
      (handleAcceptInvitations cfg "POST" auser body dres).call = none) ∧
    (∀ l d, (handleAcceptInvitations cfg "POST" auser body dres).call =
        some (DelegateCall.acceptInvitations l d) →
      ∃ ids, body.invitationIds = some ids ∧ l = sanitizeIds ids ∧
        l.length = ids.length) := by
  constructor
  · intro ids hids hbad
    rcases hbad with hnil | hlen
    · subst hnil
      simp [handleAcceptInvitations, hids, validationError]
    · by_cases hemp : ids.isEmpty
      · simp [handleAcceptInvitations, hids, hemp, validationError]
      · simp [handleAcceptInvitations, hids, hemp, hlen, validationError]
  · intro l d h
    rcases accept_cases cfg "POST" auser body dres with
      ⟨hm, ho⟩ | ⟨_, _, ho⟩ | ⟨_, _, _, _, ho⟩ | ⟨_, _, _, _, _, ho⟩ |
      ⟨_, _, _, _, _, _, _, ho⟩ | ⟨_, _, _, _, _, _, _, _, ho⟩ |
      ⟨_, ids, dd, hids, hemp, hlen, hboth, hd, hrest⟩
    · exact absurd rfl hm
    · rw [ho] at h
      exact absurd h (by simp [validationError])
    · rw [ho] at h
      exact absurd h (by simp [validationError])
    · rw [ho] at h
      exact absurd h (by simp [validationError])
    · rw [ho] at h
      exact absurd h (by simp [validationError])
    · rw [ho] at h
      exact absurd h (by simp [validationError])
    · rcases hrest with ⟨hg, ho | ho⟩ | ⟨hg, ho⟩
      · rw [ho] at h
        exact absurd h (by simp [accessDeniedHook])
      · rw [ho] at h
        exact absurd h (by simp [accessDeniedNoHook])
      · rw [ho, delegateOutcome_call] at h
        simp only [Option.some.injEq, DelegateCall.acceptInvitations.injEq] at h
        obtain ⟨h1, h2⟩ := h
        exact ⟨ids, hids, h1.symm, h1 ▸ hlen⟩

/-- Witness for C4: a one-element id list whose only element sanitizes to
empty shrinks, so the request answers 400 with no delegate call. -/
theorem claim4_accept_id_list_witness :
    (handleAcceptInvitations baseConfig "POST" (some sampleUser) badIdsBody
        (Except.ok ())).status = 400 ∧
    (handleAcceptInvitations baseConfig "POST" (some sampleUser) badIdsBody
        (Except.ok ())).call = none :=
  (claim4_accept_id_list baseConfig (some sampleUser) badIdsBody (Except.ok ())).1
    ["<>"] rfl (Or.inr (by decide))

/-- C5: for the accept operation with a valid id list, a body with
neither `user` nor `target` answers 400 "Either user or target must be
provided"; a `user` shape with neither email nor phone answers 400; and
both the `user` shape and the legacy `target` shape are accepted and
forwarded to the delegate. -/
theorem claim5_accept_shapes :
    (∀ (cfg : VortexConfig) auser ids dres, ids.isEmpty = false →
      (sanitizeIds ids).length = ids.length →
      handleAcceptInvitations cfg "POST" auser
        { invitationIds := some ids, target := none, user := none } dres =
        validationError "Either user or target must be provided") ∧
    (∀ (cfg : VortexConfig) auser ids tgt u dres, ids.isEmpty = false →
      (sanitizeIds ids).length = ids.length →
      strTruthy u.email = false → strTruthy u.phone = false →
      handleAcceptInvitations cfg "POST" auser
        { invitationIds := some ids, target := tgt, user := some u } dres =
        validationError "user must have either email or phone") ∧
    (∀ (cfg : VortexConfig) au ids tgt u dres, ids.isEmpty = false →
      (sanitizeIds ids).length = ids.length →
      (strTruthy u.email = true ∨ strTruthy u.phone = true) →
      cfg.canAcceptInvitations = none →
      handleAcceptInvitations cfg "POST" (some au)
        { invitationIds := some ids, target := tgt, user := some u } dres =
        delegateOutcome (DelegateCall.acceptInvitations (sanitizeIds ids)
          (AcceptData.userData
            (if strTruthy u.email then sanitizeInput u.email else none)
            (if strTruthy u.phone then sanitizeInput u.phone else none)
            (if strTruthy u.name then sanitizeInput u.name else none))) dres) ∧
    (∀ (cfg : VortexConfig) au ids ty v dres, ids.isEmpty = false →
      (sanitizeIds ids).length = ids.length →
      strTruthy (some ty) = true → strTruthy (some v) = true →
      (["email", "username", "phoneNumber", "phone"].contains ty) = true →
      cfg.canAcceptInvitations = none →
      handleAcceptInvitations cfg "POST" (some au)
        { invitationIds := some ids,
          target := some { type := some ty, value := some v }, user := none } dres =
        delegateOutcome (DelegateCall.acceptInvitations (sanitizeIds ids)
          (AcceptData.targetData ty
            (if strTruthy (sanitizeInput (some v)) then (sanitizeInput (some v)).getD ""
             else v))) dres) := by
  refine ⟨?_, ?_, ?_, ?_⟩
  · intro cfg auser ids dres hemp hlen
    simp [handleAcceptInvitations, hemp, hlen, validationError]
  · intro cfg auser ids tgt u dres hemp hlen he hp
    simp [handleAcceptInvitations, acceptDataOf, hemp, hlen, he, hp, validationError]
  · intro cfg au ids tgt u dres hemp hlen hor hk
    rcases hor with he | hp
    · simp [handleAcceptInvitations, acceptDataOf, hemp, hlen, he, hk, runGate]
    · simp [handleAcceptInvitations, acceptDataOf, hemp, hlen, hp, hk, runGate]
  · intro cfg au ids ty v dres hemp hlen hty hv hcont hk
    have hcont' : ty = "email" ∨ ty = "username" ∨ ty = "phoneNumber" ∨ ty = "phone" := by
      simpa using hcont
    rcases hcont' with h | h | h | h <;> subst h <;>
      simp [handleAcceptInvitations, acceptDataOf, hemp, hlen, hty, hv, hk, runGate]

/-- Witness for C5: the missing-shape 400 and the legacy-target delegate
call at concrete inputs. -/
theorem claim5_accept_shapes_witness :
    handleAcceptInvitations baseConfig "POST" (some sampleUser)
      { invitationIds := some ["i1"], target := none, user := none } (Except.ok ()) =
      validationError "Either user or target must be provided" ∧
    handleAcceptInvitations baseConfig "POST" (some sampleUser)
      { invitationIds := some ["i1"],
        target := some { type := some "email", value := some "a@b.com" },
        user := none } (Except.ok ()) =
      delegateOutcome (DelegateCall.acceptInvitations (sanitizeIds ["i1"])
        (AcceptData.targetData "email"
          (if strTruthy (sanitizeInput (some "a@b.com"))
           then (sanitizeInput (some "a@b.com")).getD "" else "a@b.com")))
        (Except.ok ()) :=
  ⟨claim5_accept_shapes.1 baseConfig (some sampleUser) ["i1"] (Except.ok ())
      (by decide) (by decide),
   claim5_accept_shapes.2.2.2 baseConfig sampleUser ["i1"] "email" "a@b.com"
      (Except.ok ()) (by decide) (by decide) (by decide) (by decide) (by decide) rfl⟩

/-- C8: contact-target kinds are validated against the fixed allow-list:
for get-by-target a sanitized targetType outside {email, username,
phoneNumber} answers 400 with the message listing the allowed values; for
the accept operation's legacy target shape a type outside {email,
username, phoneNumber, phone} answers 400, and the legacy value "phone"
is additionally accepted (the delegate is reached). -/
theorem claim8_enum_validation :
    (∀ (cfg : VortexConfig) user ttq tvq dres,
      gateVerdictNR cfg.canAccessInvitationsByTarget user = true →
      strTruthy (sanitizeInput ttq) = true → strTruthy (sanitizeInput tvq) = true →
      (["email", "username", "phoneNumber"].contains ((sanitizeInput ttq).getD "")) = false →
      handleGetInvitationsByTarget cfg "GET" user ttq tvq dres =
        validationErrorPostGate "targetType must be email, username, or phoneNumber") ∧
    (∀ (cfg : VortexConfig) auser ids ty v dres, ids.isEmpty = false →
      (sanitizeIds ids).length = ids.length →
      strTruthy (some ty) = true → strTruthy (some v) = true →
      (["email", "username", "phoneNumber", "phone"].contains ty) = false →
      handleAcceptInvitations cfg "POST" auser
        { invitationIds := some ids,
          target := some { type := some ty, value := some v }, user := none } dres =
        validationError "target.type must be email, username, phoneNumber, or phone") ∧
    (∀ (cfg : VortexConfig) au ids v dres, ids.isEmpty = false →
      (sanitizeIds ids).length = ids.length →
      strTruthy (some v) = true →
      cfg.canAcceptInvitations = none →
      (handleAcceptInvitations cfg "POST" (some au)
        { invitationIds := some ids,
          target := some { type := some "phone", value := some v },
          user := none } dres).call.isSome = true) := by
  refine ⟨?_, ?_, ?_⟩
  · intro cfg user ttq tvq dres hg ht hv hcont
    rcases getByTarget_cases cfg "GET" user ttq tvq dres with
      ⟨hm, _⟩ | ⟨_, hg2, _⟩ | ⟨_, _, hv2, ho⟩ | ⟨_, _, _, _, hc2, ho⟩ | ⟨_, _, _, _, hc2, ho⟩
    · exact absurd rfl hm
    · rw [hg] at hg2
      exact absurd hg2 (by simp)
    · rcases hv2 with hbad | hbad
      · rw [ht] at hbad
        exact absurd hbad (by simp)
      · rw [hv] at hbad
        exact absurd hbad (by simp)
    · exact ho
    · rw [hcont] at hc2
      exact absurd hc2 (by simp)
  · intro cfg auser ids ty v dres hemp hlen hty hv hcont
    have hcont' : ¬(ty = "email" ∨ ty = "username" ∨ ty = "phoneNumber" ∨ ty = "phone") := by
      simpa using hcont
    simp only [not_or] at hcont'
    simp [handleAcceptInvitations, acceptDataOf, hemp, hlen, hty, hv, validationError,
      hcont'.1, hcont'.2.1, hcont'.2.2.1, hcont'.2.2.2]
  · intro cfg au ids v dres hemp hlen hv hk
    have hph : strTruthy (some "phone") = true := by decide
    simp [handleAcceptInvitations, acceptDataOf, hemp, hlen, hv, hph, hk, runGate,
      delegateOutcome_call]

/-- Witness for C8: the scenario `targetType=carrier-pigeon` answers the
enum 400 after an allowing gate, and the legacy "phone" kind reaches the
delegate. -/
theorem claim8_enum_validation_witness :
    handleGetInvitationsByTarget allowByTargetConfig "GET" none
      (some "carrier-pigeon") (some "x") (Except.ok ()) =
      validationErrorPostGate "targetType must be email, username, or phoneNumber" ∧
    (handleAcceptInvitations baseConfig "POST" (some sampleUser)
      { invitationIds := some ["i1"],
        target := some { type := some "phone", value := some "+15551234567" },
        user := none } (Except.ok ())).call.isSome = true :=
  ⟨claim8_enum_validation.1 allowByTargetConfig none (some "carrier-pigeon") (some "x")
      (Except.ok ()) rfl (by decide) (by decide) (by decide),
   claim8_enum_validation.2.2 baseConfig sampleUser ["i1"] "+15551234567" (Except.ok ())
      (by decide) (by decide) (by decide) rfl⟩

/-- C10: for the accept operation's legacy target shape, the value
forwarded to the external client is the sanitized value when sanitization
yields a truthy (non-empty) string, and falls back to the original
unsanitized value when sanitization yields an empty result — a value made
entirely of stripped characters is forwarded unsanitized. -/
theorem claim10_target_fallback (cfg : VortexConfig) (au : AuthenticatedUser)
    (ids : List String) (ty v : String) (dres : Except String Unit)
    (hemp : ids.isEmpty = false) (hlen : (sanitizeIds ids).length = ids.length)
    (hty : strTruthy (some ty) = true) (hv : strTruthy (some v) = true)
    (hcont : (["email", "username", "phoneNumber", "phone"].contains ty) = true)
    (hk : cfg.canAcceptInvitations = none) :
    (strTruthy (sanitizeInput (some v)) = true →
      handleAcceptInvitations cfg "POST" (some au)
        { invitationIds := some ids,
          target := some { type := some ty, value := some v }, user := none } dres =
        delegateOutcome (DelegateCall.acceptInvitations (sanitizeIds ids)
          (AcceptData.targetData ty ((sanitizeInput (some v)).getD ""))) dres) ∧
    (strTruthy (sanitizeInput (some v)) = false →
      handleAcceptInvitations cfg "POST" (some au)
        { invitationIds := some ids,
          target := some { type := some ty, value := some v }, user := none } dres =
        delegateOutcome (DelegateCall.acceptInvitations (sanitizeIds ids)
          (AcceptData.targetData ty v)) dres) := by
  have hcont' : ty = "email" ∨ ty = "username" ∨ ty = "phoneNumber" ∨ ty = "phone" := by
    simpa using hcont
  constructor
  · intro hs
    rcases hcont' with h | h | h | h <;> subst h <;>
      simp [handleAcceptInvitations, acceptDataOf, hemp, hlen, hty, hv, hk, runGate, hs]
  · intro hs
    rcases hcont' with h | h | h | h <;> subst h <;>
      simp [handleAcceptInvitations, acceptDataOf, hemp, hlen, hty, hv, hk, runGate, hs]

/-- Witness for C10: the target value `"<>"` (quotes and angle brackets
only) sanitizes to empty and is forwarded to the delegate unchanged. -/
theorem claim10_target_fallback_witness :
    strTruthy (sanitizeInput (some "\"<>\"")) = false ∧
    handleAcceptInvitations baseConfig "POST" (some sampleUser) strippedTargetBody
      (Except.ok ()) =
      delegateOutcome (DelegateCall.acceptInvitations (sanitizeIds ["i1"])
        (AcceptData.targetData "email" "\"<>\"")) (Except.ok ()) :=
  ⟨by decide,
   (claim10_target_fallback baseConfig sampleUser ["i1"] "email" "\"<>\"" (Except.ok ())
      (by decide) (by decide) (by decide) (by decide) (by decide) rfl).2 (by decide)⟩
